import Mathlib

/-!
# Popcorn thread-migration shim (`lib/migration/src/migrate.c`)

A shallow embedding of the migration library: the topology cache
(`ni`, `node_available`, `current_arch`, `current_nid`, `__init_nodes_info`),
the migration-point selector (`__init_migrate_testing`, `do_migrate`), the
migration shim (`__migrate_shim_internal`) and the public entry points
(`check_migrate`, `migrate`, `migrate_schedule`).

Mutable program state is an explicit `World`; everything the library obtains
from outside (kernel syscalls, libc, the stack-transformation engine, the user
callback) is read from an `Env` of oracles.  Every externally visible action is
appended to `World.trace`, so that "is invoked", "is never written" and
"is indexed only when" become statements about the events of a call.

User callbacks come in two forms: `World.call` covers callbacks that make no
call into the library (they may only change the bootstrap slot), and the
`_nested` definitions repeat the shim for callbacks whose body is an arbitrary
program, which may call `migrate` again while the slot is still published.
-/

namespace Popcorn

/-! ## Data model -/

/-- Modelled from the spec: the architecture tag `enum arch` is declared in
`arch.h`, which is not among the sources.  The spec lists the values
`AARCH64`, `POWERPC64`, `X86_64` and `UNKNOWN`; since `node_info.arch` is a
plain C `int` filled in by the kernel, every other integer is kept as
`ARCH_OTHER`. -/
inductive arch where
  | ARCH_UNKNOWN
  | ARCH_AARCH64
  | ARCH_POWERPC64
  | ARCH_X86_64
  | ARCH_OTHER (raw : Int)
  deriving DecidableEq, Repr

/-- The ISA the library is compiled for: selects the branch of
`#ifdef __aarch64__` / `#elif defined(__powerpc64__)` / `#else`. -/
inductive isa where
  | aarch64
  | powerpc64
  | x86_64
  deriving DecidableEq, Repr

/-- Build-time configuration: `MAX_POPCORN_NODES` (from `platform.h`), the
compilation target, and the feature switches of `config.h`. -/
structure Config where
  MAX_POPCORN_NODES : Nat
  target : isa
  _ENV_SELECT_MIGRATE : Bool
  _SIG_MIGRATION : Bool
  _TIME_REWRITE : Bool
  _DEBUG : Bool
  _LOG : Bool

/-- Thread migration status information, `struct popcorn_thread_status`. -/
structure popcorn_thread_status where
  current_nid : Int
  proposed_nid : Int
  peer_nid : Int
  peer_pid : Int
  deriving DecidableEq, Repr

/-- One entry of the node table, `struct node_info`.  `status` is the value
of the `unsigned int` field. -/
structure node_info where
  status : Nat
  arch : arch
  distance : Int
  deriving DecidableEq, Repr

/-- Data needed post-migration, `struct shim_data`.  Pointers are addresses,
`0` is `NULL`. -/
structure shim_data where
  callback : Nat
  callback_data : Nat
  regset : Nat
  post_syscall : Nat
  deriving DecidableEq, Repr

/-- Modelled from the spec: `struct regset_aarch64` (declared by the stack
transformation library, not among the sources); the fields the shim touches
are `sp`, `pc` and the general-purpose registers `x`. -/
structure regset_aarch64 where
  sp : Nat
  pc : Nat
  x : Nat → Nat

/-- Modelled from the spec: `struct regset_powerpc64`; the shim touches `pc`
and the general-purpose registers `r`. -/
structure regset_powerpc64 where
  pc : Nat
  r : Nat → Nat

/-- Modelled from the spec: `struct regset_x86_64`; the shim touches `rip`,
`rsp` and `rbp`. -/
structure regset_x86_64 where
  rip : Nat
  rsp : Nat
  rbp : Nat

/-- The anonymous `union` of the three register sets in the shim.  The three
members are kept side by side; the byte overlap of the C union is not
modelled. -/
structure regs_union where
  aarch : regset_aarch64
  powerpc : regset_powerpc64
  x86 : regset_x86_64

/-- The messages written to `stderr` (`fprintf(stderr, ..)` and `perror`). -/
inductive Diag where
  | dest_unavailable
  | rewrite_failed
  | migrate_failed
  | node_info_failed
  deriving DecidableEq, Repr

/-- Externally visible actions, in program order.  `shim_entry` marks the
entry into `__migrate_shim_internal` with its three arguments, `ni_index` an
access `ni[nid]` to the node table, `slot_store` a store to
`*pthread_migrate_args()`, `callback` the call of a user callback; the other
events are the calls of the collaborators named alike. -/
inductive Event where
  | shim_entry (nid : Int) (callback : Nat) (callback_data : Nat)
  | ni_index (nid : Int)
  | syscall_get_thread_status
  | syscall_get_node_info
  | set_default_node (nid : Int)
  | get_node_mapping (region : Nat) (popcorn_tid : Int)
  | stderr (d : Diag)
  | get_local_regset
  | timestamp
  | rewrite_stack (dst_arch : arch)
  | print_rewrite_time
  | slot_store (v : Option shim_data)
  | clear_migrate_flag
  | dump_regs (a : arch)
  | assert_fail
  | migrate_syscall (nid : Int) (regs_dst : regs_union) (sp : Nat) (bp : Nat)
  | callback (fn : Nat) (arg : Nat)

/-- How the kernel migration primitive `MIGRATE(err)` ends on the calling
side: it resumes after the syscall with `err` set, or it does not come back
and the thread continues at the trampoline stored in the destination register
set. -/
inductive MigrateOutcome where
  | resumed (err : Int)
  | entered_trampoline
  deriving DecidableEq, Repr

/-- How one activation of `__migrate_shim_internal` (or of an entry point)
ends: it returns to its caller; the migration primitive took the thread to
the trampoline (`transferred`); the assertion of the `switch` failed
(`aborted`); the thread spins in the debug hold (`held`); or a null
bootstrap pointer was dereferenced (`fault`). -/
inductive Exit where
  | returned
  | transferred
  | aborted
  | held
  | fault
  deriving DecidableEq, Repr

/-- Mutable program state as one thread sees it: the node table `ni` and the
default node, the bootstrap slot `*pthread_migrate_args()` (`none` is
`NULL`, `some d` a pointer to the record `d`), the thread-specific data
`tsd` indexed by pthread key, the static variables of the selector, and the
trace of events so far. -/
structure World where
  ni : Nat → node_info
  default_node : Int
  slot : Option shim_data
  tsd : Nat → Nat
  start_aarch64 : Nat
  end_aarch64 : Nat
  start_powerpc64 : Nat
  end_powerpc64 : Nat
  start_x86_64 : Nat
  end_x86_64 : Nat
  num_migrated_aarch64 : Nat
  num_migrated_powerpc64 : Nat
  num_migrated_x86_64 : Nat
  trace : List Event

/-- Everything the library reads from its surroundings.
* `thread_status`: result of `SYSCALL_GET_THREAD_STATUS`, `none` when the
  syscall returns non-zero;
* `node_info_ret`, `node_info_origin`, `node_info_table`: return value of
  `SYSCALL_GET_NODE_INFO` and what it leaves in `origin_nid` and `ni`;
* `getenv`, `strtoll`, `pthread_key_create` (the new key, `none` on failure):
  libc;
* `get_node_mapping`: the schedule table of `mapping.h`;
* `local_regset`: what `GET_LOCAL_REGSET` captures;
* `rewrite_stack`: `REWRITE_STACK`, `none` when it reports failure, otherwise
  the destination register set;
* `migrate_syscall`: outcome of `MIGRATE(err)` for the destination node, the
  register set and `sp`/`bp` in scope;
* `callback_effect`: what a callback `fn(arg)` does to the bootstrap slot;
* `hold_released`: whether a debugger clears `__hold`;
* `frame_data`, `frame_regs_dst`: the uninitialised contents of `data` and the
  address of `regs_dst` in the activation frame of the shim;
* the three `__migrate_fixup_*` trampoline addresses. -/
structure Env where
  thread_status : Option popcorn_thread_status
  node_info_ret : Int
  node_info_origin : Int
  node_info_table : (Nat → node_info) → Nat → node_info
  getenv : String → Option String
  strtoll : String → Int
  pthread_key_create : Option Nat
  get_node_mapping : Nat → Int → Int
  local_regset : regs_union
  rewrite_stack : regs_union → arch → Option regs_union
  migrate_syscall : Int → regs_union → Nat → Nat → MigrateOutcome
  callback_effect : Nat → Nat → Option shim_data → Option shim_data
  hold_released : Bool
  frame_data : shim_data
  frame_regs_dst : Nat
  __migrate_fixup_aarch64 : Nat
  __migrate_fixup_powerpc64 : Nat
  __migrate_fixup_x86_64 : Nat

/-! ## Helpers of the embedding -/

/-- Append one event to the trace. -/
def World.log (w : World) (e : Event) : World :=
  { w with trace := w.trace ++ [e] }

/-- An action that is compiled in only when a feature switch is `1`
(`#if FLAG == 1 .. #endif`). -/
def World.logIf (w : World) (flag : Bool) (e : Event) : World :=
  if flag then w.log e else w

/-- The store `*pthread_migrate_args() = v`. -/
def World.store_slot (w : World) (v : Option shim_data) : World :=
  { w with slot := v, trace := w.trace ++ [Event.slot_store v] }

/-- The call `fn(arg)` of a user callback whose body makes no call into the
migration library: the call is recorded, and the callback may do to the
bootstrap slot whatever the environment says.  Callbacks that do call back
into the library are the subject of the `_nested` definitions below. -/
def World.call (w : World) (env : Env) (fn arg : Nat) : World :=
  { w with slot := env.callback_effect fn arg w.slot,
           trace := w.trace ++ [Event.callback fn arg] }

/-- The events a computation added when it took `w` to `w1`. -/
def emitted (w w1 : World) : List Event :=
  w1.trace.drop w.trace.length

/-- Conversion of an `unsigned int` value to `int` (32-bit two's complement),
as happens in `return ni[nid].status;`. -/
def int_of_unsigned (u : Nat) : Int :=
  if u % 2 ^ 32 < 2 ^ 31 then ((u % 2 ^ 32 : Nat) : Int)
  else ((u % 2 ^ 32 : Nat) : Int) - 2 ^ 32

/-- Conversion `(void *)strtoll(..)`: a `long long` reinterpreted as a 64-bit
address. -/
def ptr_of_longlong (v : Int) : Nat :=
  (v % 2 ^ 64).toNat

/-- The libc call `pthread_getspecific(key)`. -/
def pthread_getspecific (key : Nat) (w : World) : Nat :=
  w.tsd key

/-- The libc call `pthread_setspecific(key, value)`. -/
def pthread_setspecific (key : Nat) (value : Nat) (w : World) : World :=
  { w with tsd := Function.update w.tsd key value }

/-! ## Migration-point selector -/

/-- The static initialisers of the selector variables (all `NULL` / `0`). -/
def load_statics (w : World) : World :=
  { w with
    start_aarch64 := 0, end_aarch64 := 0,
    start_powerpc64 := 0, end_powerpc64 := 0,
    start_x86_64 := 0, end_x86_64 := 0,
    num_migrated_aarch64 := 0, num_migrated_powerpc64 := 0,
    num_migrated_x86_64 := 0 }

/-- Read environment variables to setup migration points
(`__init_migrate_testing`, compiled only when `_ENV_SELECT_MIGRATE == 1`). -/
def __init_migrate_testing (cfg : Config) (env : Env) (w : World) : World :=
  if cfg._ENV_SELECT_MIGRATE then
    match cfg.target with
    | isa.aarch64 =>
      match env.getenv "AARCH64_MIGRATE_START", env.getenv "AARCH64_MIGRATE_END" with
      | some start, some end_ =>
        let w := { w with start_aarch64 := ptr_of_longlong (env.strtoll start) }
        let w := { w with end_aarch64 := ptr_of_longlong (env.strtoll end_) }
        if w.start_aarch64 ≠ 0 ∧ w.end_aarch64 ≠ 0 then
          match env.pthread_key_create with
          | some key => { w with num_migrated_aarch64 := key }
          | none => w
        else w
      | _, _ => w
    | isa.powerpc64 =>
      match env.getenv "POWERPC64_MIGRATE_START", env.getenv "POWERPC64_MIGRATE_END" with
      | some start, some end_ =>
        let w := { w with start_powerpc64 := ptr_of_longlong (env.strtoll start) }
        let w := { w with end_powerpc64 := ptr_of_longlong (env.strtoll end_) }
        if w.start_powerpc64 ≠ 0 ∧ w.end_powerpc64 ≠ 0 then
          match env.pthread_key_create with
          | some key => { w with num_migrated_powerpc64 := key }
          | none => w
        else w
      | _, _ => w
    | isa.x86_64 =>
      match env.getenv "X86_64_MIGRATE_START", env.getenv "X86_64_MIGRATE_END" with
      | some start, some end_ =>
        let w := { w with start_x86_64 := ptr_of_longlong (env.strtoll start) }
        let w := { w with end_x86_64 := ptr_of_longlong (env.strtoll end_) }
        if w.start_x86_64 ≠ 0 ∧ w.end_x86_64 ≠ 0 then
          match env.pthread_key_create with
          | some key => { w with num_migrated_x86_64 := key }
          | none => w
        else w
      | _, _ => w
  else w

/-- Check whether this call site is the one at which to migrate
(`do_migrate`).  With `_ENV_SELECT_MIGRATE` the address is compared with the
range of the compilation target; otherwise the kernel is asked for the
proposed node. -/
def do_migrate (cfg : Config) (env : Env) (addr : Nat) (w : World) : Int × World :=
  if cfg._ENV_SELECT_MIGRATE then
    match cfg.target with
    | isa.aarch64 =>
      if w.start_aarch64 ≠ 0 ∧ pthread_getspecific w.num_migrated_aarch64 w = 0 then
        if w.start_aarch64 ≤ addr ∧ addr < w.end_aarch64 then
          (0, pthread_setspecific w.num_migrated_aarch64 1 w)
        else (-1, w)
      else (-1, w)
    | isa.powerpc64 =>
      if w.start_powerpc64 ≠ 0 ∧ pthread_getspecific w.num_migrated_powerpc64 w = 0 then
        if w.start_powerpc64 ≤ addr ∧ addr < w.end_powerpc64 then
          (1, pthread_setspecific w.num_migrated_powerpc64 1 w)
        else (-1, w)
      else (-1, w)
    | isa.x86_64 =>
      if w.start_x86_64 ≠ 0 ∧ pthread_getspecific w.num_migrated_x86_64 w = 0 then
        if w.start_x86_64 ≤ addr ∧ addr < w.end_x86_64 then
          (2, pthread_setspecific w.num_migrated_x86_64 1 w)
        else (-1, w)
      else (-1, w)
  else
    let w := w.log Event.syscall_get_thread_status
    match env.thread_status with
    | none => (-1, w)
    | some status => (status.proposed_nid, w)

/-- A thread calling `do_migrate` once for every address of a list, in
order; the return values are collected. -/
def do_migrate_seq (cfg : Config) (env : Env) : List Nat → World → List Int × World
  | [], w => ([], w)
  | addr :: rest, w =>
    let r := do_migrate cfg env addr w
    let rs := do_migrate_seq cfg env rest r.2
    (r.1 :: rs.1, rs.2)

/-! ## Topology cache -/

/-- The function `node_available`. -/
def node_available (cfg : Config) (nid : Int) (w : World) : Int × World :=
  if nid < 0 ∨ nid ≥ cfg.MAX_POPCORN_NODES then (0, w)
  else (int_of_unsigned (w.ni nid.toNat).status, w.log (Event.ni_index nid))

/-- The function `current_nid`. -/
def current_nid (env : Env) (w : World) : Int × World :=
  let w := w.log Event.syscall_get_thread_status
  match env.thread_status with
  | none => (-1, w)
  | some status => (status.current_nid, w)

/-- The function `current_arch`. -/
def current_arch (cfg : Config) (env : Env) (w : World) : arch × World :=
  let r := current_nid env w
  let nid := r.1
  let w := r.2
  if nid < 0 ∨ nid ≥ cfg.MAX_POPCORN_NODES then (arch.ARCH_UNKNOWN, w)
  else ((w.ni nid.toNat).arch, w.log (Event.ni_index nid))

/-- The body of the loop of `__init_nodes_info`: `ni[i].status = 0;
ni[i].arch = ARCH_UNKNOWN; ni[i].distance = -1;`. -/
def reset_node (w : World) (i : Nat) : World :=
  let unknown : node_info := { status := 0, arch := arch.ARCH_UNKNOWN, distance := -1 }
  { w with ni := Function.update w.ni i unknown }

/-- The constructor `__init_nodes_info`: one `SYSCALL_GET_NODE_INFO`, and on
failure the loop that resets every entry. -/
def __init_nodes_info (cfg : Config) (env : Env) (w : World) : World :=
  let origin_nid := env.node_info_origin
  let w := { w with ni := env.node_info_table w.ni }.log Event.syscall_get_node_info
  let ret := env.node_info_ret
  if ret ≠ 0 then
    let w := w.log (Event.stderr Diag.node_info_failed)
    let w := (List.range cfg.MAX_POPCORN_NODES).foldl reset_node w
    { w with default_node := -1 }.log (Event.set_default_node (-1))
  else
    { w with default_node := origin_nid }.log (Event.set_default_node origin_nid)

/-! ## Migration shim -/

/-- The `switch(dst_arch)` of the shim: patches the destination program
counter with the resumption trampoline and picks `sp` and `bp`; `none` is the
`default:` case with its failing assertion. -/
def dispatch (env : Env) (dst_arch : arch) (regs_dst : regs_union) :
    Option (regs_union × Nat × Nat) :=
  match dst_arch with
  | arch.ARCH_AARCH64 =>
    let regs_dst :=
      { regs_dst with aarch := { regs_dst.aarch with pc := env.__migrate_fixup_aarch64 } }
    some (regs_dst, regs_dst.aarch.sp, regs_dst.aarch.x 29)
  | arch.ARCH_POWERPC64 =>
    let regs_dst :=
      { regs_dst with powerpc := { regs_dst.powerpc with pc := env.__migrate_fixup_powerpc64 } }
    some (regs_dst, regs_dst.powerpc.r 1, regs_dst.powerpc.r 31)
  | arch.ARCH_X86_64 =>
    let regs_dst :=
      { regs_dst with x86 := { regs_dst.x86 with rip := env.__migrate_fixup_x86_64 } }
    some (regs_dst, regs_dst.x86.rsp, regs_dst.x86.rbp)
  | _ => none

/-- The tail of the shim after the comment "Post-migration": the debug hold
`while(__hold);`, the callback of the bootstrap record, and the clearing of
the slot.  `data_ptr` is the value read from the slot; dereferencing `NULL`
is a fault. -/
def post_migration (cfg : Config) (env : Env) (data_ptr : Option shim_data) (w : World) :
    Exit × World :=
  if cfg._DEBUG = true ∧ env.hold_released = false then (Exit.held, w)
  else
    match data_ptr with
    | none => (Exit.fault, w)
    | some d =>
      let w := if d.callback ≠ 0 then w.call env d.callback d.callback_data else w
      (Exit.returned, w.store_slot none)

/-- The shim from `MIGRATE(err)` on: the kernel migration primitive and the
test of `err`. -/
def shim_transfer (cfg : Config) (env : Env) (nid : Int) (regs_dst : regs_union)
    (sp bp : Nat) (w : World) : Exit × World :=
  let w := w.log (Event.migrate_syscall nid regs_dst sp bp)
  match env.migrate_syscall nid regs_dst sp bp with
  | MigrateOutcome.entered_trampoline => (Exit.transferred, w)
  | MigrateOutcome.resumed err =>
    if err ≠ 0 then
      let w := w.log (Event.stderr Diag.migrate_failed)
      (Exit.returned, w.store_slot none)
    else
      let data_ptr := w.slot
      post_migration cfg env data_ptr w

/-- The shim after a successful `REWRITE_STACK`: the bootstrap record is
filled in and published, the destination register set is patched by the
`switch`, and control goes to the migration primitive. -/
def shim_publish (cfg : Config) (env : Env) (nid : Int) (callback callback_data : Nat)
    (dst_arch : arch) (regs_dst : regs_union) (w : World) : Exit × World :=
  let w := (w.logIf cfg._TIME_REWRITE Event.timestamp).logIf cfg._TIME_REWRITE
    Event.print_rewrite_time
  let data : shim_data :=
    { env.frame_data with
      callback := callback, callback_data := callback_data, regset := env.frame_regs_dst }
  let w := w.store_slot (some data)
  let w := w.logIf cfg._SIG_MIGRATION Event.clear_migrate_flag
  match dispatch env dst_arch regs_dst with
  | none => (Exit.aborted, w.log Event.assert_fail)
  | some (regs_dst, sp, bp) =>
    let w := w.logIf cfg._LOG (Event.dump_regs dst_arch)
    shim_transfer cfg env nid regs_dst sp bp w

/-- The block `if(!data_ptr) // Invoke migration` of the shim up to the
result of `REWRITE_STACK`. -/
def shim_invoke (cfg : Config) (env : Env) (nid : Int) (callback callback_data : Nat)
    (w : World) : Exit × World :=
  let dst_arch := (w.ni nid.toNat).arch
  let w := w.log (Event.ni_index nid)
  let regs_src := env.local_regset
  let w := w.log Event.get_local_regset
  let w := w.logIf cfg._TIME_REWRITE Event.timestamp
  let w := w.log (Event.rewrite_stack dst_arch)
  match env.rewrite_stack regs_src dst_arch with
  | some regs_dst => shim_publish cfg env nid callback callback_data dst_arch regs_dst w
  | none => (Exit.returned, w.log (Event.stderr Diag.rewrite_failed))

/-- Check and invoke migration if requested (`__migrate_shim_internal`). -/
def __migrate_shim_internal (cfg : Config) (env : Env) (nid : Int) (callback : Nat)
    (callback_data : Nat) (w : World) : Exit × World :=
  let w := w.log (Event.shim_entry nid callback callback_data)
  let r := node_available cfg nid w
  let w := r.2
  if r.1 = 0 then
    (Exit.returned, w.log (Event.stderr Diag.dest_unavailable))
  else
    let data_ptr := w.slot
    match data_ptr with
    | none => shim_invoke cfg env nid callback callback_data w
    | some d => post_migration cfg env (some d) w

/-! ## Public entry points -/

/-- Check if we should migrate, and invoke migration (`check_migrate`);
`ra` is `__builtin_return_address(0)`. -/
def check_migrate (cfg : Config) (env : Env) (ra : Nat) (callback : Nat)
    (callback_data : Nat) (w : World) : Exit × World :=
  let r := do_migrate cfg env ra w
  let nid := r.1
  let w := r.2
  if nid ≥ 0 then
    let c := current_nid env w
    if nid ≠ c.1 then
      __migrate_shim_internal cfg env nid callback callback_data c.2
    else (Exit.returned, c.2)
  else (Exit.returned, w)

/-- Invoke migration to a particular node if we are not already there
(`migrate`). -/
def migrate (cfg : Config) (env : Env) (nid : Int) (callback : Nat)
    (callback_data : Nat) (w : World) : Exit × World :=
  let c := current_nid env w
  if nid ≠ c.1 then
    __migrate_shim_internal cfg env nid callback callback_data c.2
  else (Exit.returned, c.2)

/-- Invoke migration to a particular node according to a thread schedule
(`migrate_schedule`). -/
def migrate_schedule (cfg : Config) (env : Env) (region : Nat) (popcorn_tid : Int)
    (callback : Nat) (callback_data : Nat) (w : World) : Exit × World :=
  let nid := env.get_node_mapping region popcorn_tid
  let w := w.log (Event.get_node_mapping region popcorn_tid)
  let c := current_nid env w
  if nid ≠ c.1 then
    __migrate_shim_internal cfg env nid callback callback_data c.2
  else (Exit.returned, c.2)

/-! ## Callbacks that call back into the library

The same code as the shim above, for callbacks that are arbitrary programs:
`run fn arg` is what the body of `fn(arg)` does to the state of the thread,
the events of the library calls it makes included.  The call happens at
`if(data_ptr->callback) data_ptr->callback(data_ptr->callback_data);` with the
bootstrap slot still published; the slot is cleared only after the callback
has returned. -/

/-- The callbacks of `World.call` as programs: they change the bootstrap slot
as the environment says and do nothing else. -/
def slot_only_callbacks (env : Env) : Nat → Nat → World → World :=
  fun fn arg w => { w with slot := env.callback_effect fn arg w.slot }

/-- The tail of the shim after the comment "Post-migration", with the body of
the callback given by `run`. -/
def post_migration_nested (cfg : Config) (env : Env) (run : Nat → Nat → World → World)
    (data_ptr : Option shim_data) (w : World) : Exit × World :=
  if cfg._DEBUG = true ∧ env.hold_released = false then (Exit.held, w)
  else
    match data_ptr with
    | none => (Exit.fault, w)
    | some d =>
      let w :=
        if d.callback ≠ 0 then
          run d.callback d.callback_data (w.log (Event.callback d.callback d.callback_data))
        else w
      (Exit.returned, w.store_slot none)

/-- The shim from `MIGRATE(err)` on, with the body of the callback given by
`run`. -/
def shim_transfer_nested (cfg : Config) (env : Env) (run : Nat → Nat → World → World)
    (nid : Int) (regs_dst : regs_union) (sp bp : Nat) (w : World) : Exit × World :=
  let w := w.log (Event.migrate_syscall nid regs_dst sp bp)
  match env.migrate_syscall nid regs_dst sp bp with
  | MigrateOutcome.entered_trampoline => (Exit.transferred, w)
  | MigrateOutcome.resumed err =>
    if err ≠ 0 then
      let w := w.log (Event.stderr Diag.migrate_failed)
      (Exit.returned, w.store_slot none)
    else
      let data_ptr := w.slot
      post_migration_nested cfg env run data_ptr w

/-- The shim after a successful `REWRITE_STACK`, with the body of the
callback given by `run`. -/
def shim_publish_nested (cfg : Config) (env : Env) (run : Nat → Nat → World → World)
    (nid : Int) (callback callback_data : Nat) (dst_arch : arch) (regs_dst : regs_union)
    (w : World) : Exit × World :=
  let w := (w.logIf cfg._TIME_REWRITE Event.timestamp).logIf cfg._TIME_REWRITE
    Event.print_rewrite_time
  let data : shim_data :=
    { env.frame_data with
      callback := callback, callback_data := callback_data, regset := env.frame_regs_dst }
  let w := w.store_slot (some data)
  let w := w.logIf cfg._SIG_MIGRATION Event.clear_migrate_flag
  match dispatch env dst_arch regs_dst with
  | none => (Exit.aborted, w.log Event.assert_fail)
  | some (regs_dst, sp, bp) =>
    let w := w.logIf cfg._LOG (Event.dump_regs dst_arch)
    shim_transfer_nested cfg env run nid regs_dst sp bp w

/-- The block `if(!data_ptr) // Invoke migration` of the shim, with the body
of the callback given by `run`. -/
def shim_invoke_nested (cfg : Config) (env : Env) (run : Nat → Nat → World → World)
    (nid : Int) (callback callback_data : Nat) (w : World) : Exit × World :=
  let dst_arch := (w.ni nid.toNat).arch
  let w := w.log (Event.ni_index nid)
  let regs_src := env.local_regset
  let w := w.log Event.get_local_regset
  let w := w.logIf cfg._TIME_REWRITE Event.timestamp
  let w := w.log (Event.rewrite_stack dst_arch)
  match env.rewrite_stack regs_src dst_arch with
  | some regs_dst =>
    shim_publish_nested cfg env run nid callback callback_data dst_arch regs_dst w
  | none => (Exit.returned, w.log (Event.stderr Diag.rewrite_failed))

/-- The function `__migrate_shim_internal`, with the body of the callback
given by `run`. -/
def __migrate_shim_internal_nested (cfg : Config) (env : Env)
    (run : Nat → Nat → World → World) (nid : Int) (callback : Nat) (callback_data : Nat)
    (w : World) : Exit × World :=
  let w := w.log (Event.shim_entry nid callback callback_data)
  let r := node_available cfg nid w
  let w := r.2
  if r.1 = 0 then
    (Exit.returned, w.log (Event.stderr Diag.dest_unavailable))
  else
    let data_ptr := w.slot
    match data_ptr with
    | none => shim_invoke_nested cfg env run nid callback callback_data w
    | some d => post_migration_nested cfg env run (some d) w

/-! ## Observations on traces -/

/-- Is the event an invocation of a callback? -/
def Event.isCallback : Event → Bool
  | Event.callback _ _ => true
  | _ => false

/-- Is the event an invocation of the stack rewriter? -/
def Event.isRewrite : Event → Bool
  | Event.rewrite_stack _ => true
  | _ => false

/-- Is the event an invocation of the kernel migration primitive? -/
def Event.isMigrate : Event → Bool
  | Event.migrate_syscall _ _ _ _ => true
  | _ => false

/-- Is the event an entry into `__migrate_shim_internal`? -/
def Event.isShimEntry : Event → Bool
  | Event.shim_entry _ _ _ => true
  | _ => false

/-- Is the event an access to the node table with an index outside
`[0, MAX_POPCORN_NODES)`? -/
def Event.isBadIndex (cfg : Config) : Event → Bool
  | Event.ni_index i => decide (i < 0 ∨ i ≥ cfg.MAX_POPCORN_NODES)
  | _ => false

/-- Is the event the failing assertion "Unsupported architecture!"? -/
def Event.isAssertFail : Event → Bool
  | Event.assert_fail => true
  | _ => false

/-- Is the event the invocation of callback `fn` with argument `arg`? -/
def Event.isCallbackOf (fn arg : Nat) : Event → Bool
  | Event.callback f a => decide (f = fn ∧ a = arg)
  | _ => false

/-- The node id `do_migrate` hands out under the environment-range strategy:
`0` when compiled for AArch64, `1` for POWERPC64, `2` otherwise. -/
def env_select_node (cfg : Config) : Int :=
  match cfg.target with
  | isa.aarch64 => 0
  | isa.powerpc64 => 1
  | isa.x86_64 => 2

/-- The TLS key of the "already migrated" flag of the compilation target. -/
def migrated_key (cfg : Config) (w : World) : Nat :=
  match cfg.target with
  | isa.aarch64 => w.num_migrated_aarch64
  | isa.powerpc64 => w.num_migrated_powerpc64
  | isa.x86_64 => w.num_migrated_x86_64

/-- The "already migrated" flag of the thread, as `do_migrate` reads it. -/
def migrated_flag (cfg : Config) (w : World) : Nat :=
  pthread_getspecific (migrated_key cfg w) w

/-- Start of the address range of the compilation target. -/
def range_start (cfg : Config) (w : World) : Nat :=
  match cfg.target with
  | isa.aarch64 => w.start_aarch64
  | isa.powerpc64 => w.start_powerpc64
  | isa.x86_64 => w.start_x86_64

/-- End of the address range of the compilation target. -/
def range_end (cfg : Config) (w : World) : Nat :=
  match cfg.target with
  | isa.aarch64 => w.end_aarch64
  | isa.powerpc64 => w.end_powerpc64
  | isa.x86_64 => w.end_x86_64

/-- Name of the environment variable with the start of the range. -/
def env_start_name (cfg : Config) : String :=
  match cfg.target with
  | isa.aarch64 => "AARCH64_MIGRATE_START"
  | isa.powerpc64 => "POWERPC64_MIGRATE_START"
  | isa.x86_64 => "X86_64_MIGRATE_START"

/-- Name of the environment variable with the end of the range. -/
def env_end_name (cfg : Config) : String :=
  match cfg.target with
  | isa.aarch64 => "AARCH64_MIGRATE_END"
  | isa.powerpc64 => "POWERPC64_MIGRATE_END"
  | isa.x86_64 => "X86_64_MIGRATE_END"

/-- The topology invariant of the spec: an available node has one of the
three supported architectures. -/
def topology_ok (cfg : Config) (w : World) : Prop :=
  ∀ i : Nat, i < cfg.MAX_POPCORN_NODES → int_of_unsigned (w.ni i).status ≠ 0 →
    (w.ni i).arch = arch.ARCH_AARCH64 ∨ (w.ni i).arch = arch.ARCH_POWERPC64 ∨
    (w.ni i).arch = arch.ARCH_X86_64

/-- A call that came back to its caller without any migration activity: no
invocation of the stack rewriter, of the migration primitive or of a
callback among the events between `w` and the result. -/
def no_migration_activity (w : World) (r : Exit × World) : Prop :=
  r.1 = Exit.returned ∧
  List.any (emitted w r.2) Event.isRewrite = false ∧
  List.any (emitted w r.2) Event.isMigrate = false ∧
  List.any (emitted w r.2) Event.isCallback = false

/-- A register-set union with every register zero except the ones named. -/
def sample_regs (sp fp : Nat) : regs_union :=
  { aarch := { sp := sp, pc := 0, x := fun i => if i = 29 then fp else 0 },
    powerpc := { pc := 0, r := fun i => if i = 1 then sp else if i = 31 then fp else 0 },
    x86 := { rip := 0, rsp := sp, rbp := fp } }

/-- An x86-64 build with 32 nodes, environment-range selector, no debug. -/
def sample_cfg : Config :=
  { MAX_POPCORN_NODES := 32, target := isa.x86_64, _ENV_SELECT_MIGRATE := true,
    _SIG_MIGRATION := false, _TIME_REWRITE := false, _DEBUG := false, _LOG := false }

/-- Two-node topology: node 0 and node 1 are x86-64 and available. -/
def sample_ni : Nat → node_info := fun i =>
  if i < 2 then { status := 1, arch := arch.ARCH_X86_64, distance := 1 }
  else { status := 0, arch := arch.ARCH_UNKNOWN, distance := -1 }

/-- A thread on node 0 with an empty bootstrap slot and no selector range. -/
def sample_world : World :=
  { ni := sample_ni, default_node := 0, slot := none, tsd := fun _ => 0,
    start_aarch64 := 0, end_aarch64 := 0, start_powerpc64 := 0, end_powerpc64 := 0,
    start_x86_64 := 0, end_x86_64 := 0, num_migrated_aarch64 := 0,
    num_migrated_powerpc64 := 0, num_migrated_x86_64 := 0, trace := [] }

/-- An environment in which every collaborator succeeds: the thread is on
node 0, the rewriter returns a register set, the migration primitive resumes
with `err == 0` (homogeneous migration) and callbacks leave the slot alone. -/
def sample_env : Env :=
  { thread_status := some { current_nid := 0, proposed_nid := 1, peer_nid := 0, peer_pid := 0 },
    node_info_ret := 0, node_info_origin := 0, node_info_table := fun t => t,
    getenv := fun _ => none, strtoll := fun _ => 0, pthread_key_create := some 1,
    get_node_mapping := fun _ _ => 1,
    local_regset := sample_regs 4096 4128,
    rewrite_stack := fun _ _ => some (sample_regs 8192 8224),
    migrate_syscall := fun _ _ _ _ => MigrateOutcome.resumed 0,
    callback_effect := fun _ _ s => s,
    hold_released := true,
    frame_data := { callback := 0, callback_data := 0, regset := 0, post_syscall := 0 },
    frame_regs_dst := 4000,
    __migrate_fixup_aarch64 := 100, __migrate_fixup_powerpc64 := 200,
    __migrate_fixup_x86_64 := 300 }

/-- The same environment with a failing thread-status query. -/
def sample_env_nostatus : Env :=
  { sample_env with thread_status := none }

/-- The sample environment with a failing topology query. -/
def sample_env_notopology : Env :=
  { sample_env with node_info_ret := 1 }

/-- The sample thread after start-up with the range `[0x400500, 0x400600)`
configured for x86-64 and TLS key 1 for the flag. -/
def sample_world_range : World :=
  { sample_world with start_x86_64 := 0x400500, end_x86_64 := 0x400600,
                      num_migrated_x86_64 := 1 }

/-- The sample environment as the thread sees it on node 1, after the
migration. -/
def sample_env_node1 : Env :=
  { sample_env with
    thread_status := some { current_nid := 1, proposed_nid := 1, peer_nid := 0, peer_pid := 0 } }

/-! ## Projections of the state helpers -/
@[simp] theorem log_ni (w : World) (e : Event) : (w.log e).ni = w.ni := rfl
@[simp] theorem logIf_ni (w : World) (c : Bool) (e : Event) :
    (w.logIf c e).ni = w.ni := by
  cases c <;> rfl
@[simp] theorem store_slot_ni (w : World) (v : Option shim_data) :
    (w.store_slot v).ni = w.ni := rfl
@[simp] theorem call_ni (w : World) (env : Env) (fn arg : Nat) :
    (w.call env fn arg).ni = w.ni := rfl
@[simp] theorem setspecific_ni (k v : Nat) (w : World) :
    (pthread_setspecific k v w).ni = w.ni := rfl
@[simp] theorem log_default_node (w : World) (e : Event) :
    (w.log e).default_node = w.default_node := rfl
@[simp] theorem logIf_default_node (w : World) (c : Bool) (e : Event) :
    (w.logIf c e).default_node = w.default_node := by
  cases c <;> rfl
@[simp] theorem store_slot_default_node (w : World) (v : Option shim_data) :
    (w.store_slot v).default_node = w.default_node := rfl
@[simp] theorem call_default_node (w : World) (env : Env) (fn arg : Nat) :
    (w.call env fn arg).default_node = w.default_node := rfl
@[simp] theorem setspecific_default_node (k v : Nat) (w : World) :
    (pthread_setspecific k v w).default_node = w.default_node := rfl
@[simp] theorem log_slot (w : World) (e : Event) : (w.log e).slot = w.slot := rfl
@[simp] theorem logIf_slot (w : World) (c : Bool) (e : Event) :
    (w.logIf c e).slot = w.slot := by
  cases c <;> rfl
@[simp] theorem setspecific_slot (k v : Nat) (w : World) :
    (pthread_setspecific k v w).slot = w.slot := rfl
@[simp] theorem log_tsd (w : World) (e : Event) : (w.log e).tsd = w.tsd := rfl
@[simp] theorem logIf_tsd (w : World) (c : Bool) (e : Event) :
    (w.logIf c e).tsd = w.tsd := by
  cases c <;> rfl
@[simp] theorem store_slot_tsd (w : World) (v : Option shim_data) :
    (w.store_slot v).tsd = w.tsd := rfl
@[simp] theorem call_tsd (w : World) (env : Env) (fn arg : Nat) :
    (w.call env fn arg).tsd = w.tsd := rfl
@[simp] theorem log_start_aarch64 (w : World) (e : Event) :
    (w.log e).start_aarch64 = w.start_aarch64 := rfl
@[simp] theorem logIf_start_aarch64 (w : World) (c : Bool) (e : Event) :
    (w.logIf c e).start_aarch64 = w.start_aarch64 := by
  cases c <;> rfl
@[simp] theorem store_slot_start_aarch64 (w : World) (v : Option shim_data) :
    (w.store_slot v).start_aarch64 = w.start_aarch64 := rfl
@[simp] theorem call_start_aarch64 (w : World) (env : Env) (fn arg : Nat) :
    (w.call env fn arg).start_aarch64 = w.start_aarch64 := rfl
@[simp] theorem setspecific_start_aarch64 (k v : Nat) (w : World) :
    (pthread_setspecific k v w).start_aarch64 = w.start_aarch64 := rfl
@[simp] theorem log_end_aarch64 (w : World) (e : Event) :
    (w.log e).end_aarch64 = w.end_aarch64 := rfl
@[simp] theorem logIf_end_aarch64 (w : World) (c : Bool) (e : Event) :
    (w.logIf c e).end_aarch64 = w.end_aarch64 := by
  cases c <;> rfl
@[simp] theorem store_slot_end_aarch64 (w : World) (v : Option shim_data) :
    (w.store_slot v).end_aarch64 = w.end_aarch64 := rfl
@[simp] theorem call_end_aarch64 (w : World) (env : Env) (fn arg : Nat) :
    (w.call env fn arg).end_aarch64 = w.end_aarch64 := rfl
@[simp] theorem setspecific_end_aarch64 (k v : Nat) (w : World) :
    (pthread_setspecific k v w).end_aarch64 = w.end_aarch64 := rfl
@[simp] theorem log_start_powerpc64 (w : World) (e : Event) :
    (w.log e).start_powerpc64 = w.start_powerpc64 := rfl
@[simp] theorem logIf_start_powerpc64 (w : World) (c : Bool) (e : Event) :
    (w.logIf c e).start_powerpc64 = w.start_powerpc64 := by
  cases c <;> rfl
@[simp] theorem store_slot_start_powerpc64 (w : World) (v : Option shim_data) :
    (w.store_slot v).start_powerpc64 = w.start_powerpc64 := rfl
@[simp] theorem call_start_powerpc64 (w : World) (env : Env) (fn arg : Nat) :
    (w.call env fn arg).start_powerpc64 = w.start_powerpc64 := rfl
@[simp] theorem setspecific_start_powerpc64 (k v : Nat) (w : World) :
    (pthread_setspecific k v w).start_powerpc64 = w.start_powerpc64 := rfl
@[simp] theorem log_end_powerpc64 (w : World) (e : Event) :
    (w.log e).end_powerpc64 = w.end_powerpc64 := rfl
@[simp] theorem logIf_end_powerpc64 (w : World) (c : Bool) (e : Event) :
    (w.logIf c e).end_powerpc64 = w.end_powerpc64 := by
  cases c <;> rfl
@[simp] theorem store_slot_end_powerpc64 (w : World) (v : Option shim_data) :
    (w.store_slot v).end_powerpc64 = w.end_powerpc64 := rfl
@[simp] theorem call_end_powerpc64 (w : World) (env : Env) (fn arg : Nat) :
    (w.call env fn arg).end_powerpc64 = w.end_powerpc64 := rfl
@[simp] theorem setspecific_end_powerpc64 (k v : Nat) (w : World) :
    (pthread_setspecific k v w).end_powerpc64 = w.end_powerpc64 := rfl
@[simp] theorem log_start_x86_64 (w : World) (e : Event) :
    (w.log e).start_x86_64 = w.start_x86_64 := rfl
@[simp] theorem logIf_start_x86_64 (w : World) (c : Bool) (e : Event) :
    (w.logIf c e).start_x86_64 = w.start_x86_64 := by
  cases c <;> rfl
@[simp] theorem store_slot_start_x86_64 (w : World) (v : Option shim_data) :
    (w.store_slot v).start_x86_64 = w.start_x86_64 := rfl
@[simp] theorem call_start_x86_64 (w : World) (env : Env) (fn arg : Nat) :
    (w.call env fn arg).start_x86_64 = w.start_x86_64 := rfl
@[simp] theorem setspecific_start_x86_64 (k v : Nat) (w : World) :
    (pthread_setspecific k v w).start_x86_64 = w.start_x86_64 := rfl
@[simp] theorem log_end_x86_64 (w : World) (e : Event) : (w.log e).end_x86_64 = w.end_x86_64 := rfl
@[simp] theorem logIf_end_x86_64 (w : World) (c : Bool) (e : Event) :
    (w.logIf c e).end_x86_64 = w.end_x86_64 := by
  cases c <;> rfl
@[simp] theorem store_slot_end_x86_64 (w : World) (v : Option shim_data) :
    (w.store_slot v).end_x86_64 = w.end_x86_64 := rfl
@[simp] theorem call_end_x86_64 (w : World) (env : Env) (fn arg : Nat) :
    (w.call env fn arg).end_x86_64 = w.end_x86_64 := rfl
@[simp] theorem setspecific_end_x86_64 (k v : Nat) (w : World) :
    (pthread_setspecific k v w).end_x86_64 = w.end_x86_64 := rfl
@[simp] theorem log_num_migrated_aarch64 (w : World) (e : Event) :
    (w.log e).num_migrated_aarch64 = w.num_migrated_aarch64 := rfl
@[simp] theorem logIf_num_migrated_aarch64 (w : World) (c : Bool) (e : Event) :
    (w.logIf c e).num_migrated_aarch64 = w.num_migrated_aarch64 := by
  cases c <;> rfl
@[simp] theorem store_slot_num_migrated_aarch64 (w : World) (v : Option shim_data) :
    (w.store_slot v).num_migrated_aarch64 = w.num_migrated_aarch64 := rfl
@[simp] theorem call_num_migrated_aarch64 (w : World) (env : Env) (fn arg : Nat) :
    (w.call env fn arg).num_migrated_aarch64 = w.num_migrated_aarch64 := rfl
@[simp] theorem setspecific_num_migrated_aarch64 (k v : Nat) (w : World) :
    (pthread_setspecific k v w).num_migrated_aarch64 = w.num_migrated_aarch64 := rfl
@[simp] theorem log_num_migrated_powerpc64 (w : World) (e : Event) :
    (w.log e).num_migrated_powerpc64 = w.num_migrated_powerpc64 := rfl
@[simp] theorem logIf_num_migrated_powerpc64 (w : World) (c : Bool) (e : Event) :
    (w.logIf c e).num_migrated_powerpc64 = w.num_migrated_powerpc64 := by
  cases c <;> rfl
@[simp] theorem store_slot_num_migrated_powerpc64 (w : World) (v : Option shim_data) :
    (w.store_slot v).num_migrated_powerpc64 = w.num_migrated_powerpc64 := rfl
@[simp] theorem call_num_migrated_powerpc64 (w : World) (env : Env) (fn arg : Nat) :
    (w.call env fn arg).num_migrated_powerpc64 = w.num_migrated_powerpc64 := rfl
@[simp] theorem setspecific_num_migrated_powerpc64 (k v : Nat) (w : World) :
    (pthread_setspecific k v w).num_migrated_powerpc64 = w.num_migrated_powerpc64 := rfl
@[simp] theorem log_num_migrated_x86_64 (w : World) (e : Event) :
    (w.log e).num_migrated_x86_64 = w.num_migrated_x86_64 := rfl
@[simp] theorem logIf_num_migrated_x86_64 (w : World) (c : Bool) (e : Event) :
    (w.logIf c e).num_migrated_x86_64 = w.num_migrated_x86_64 := by
  cases c <;> rfl
@[simp] theorem store_slot_num_migrated_x86_64 (w : World) (v : Option shim_data) :
    (w.store_slot v).num_migrated_x86_64 = w.num_migrated_x86_64 := rfl
@[simp] theorem call_num_migrated_x86_64 (w : World) (env : Env) (fn arg : Nat) :
    (w.call env fn arg).num_migrated_x86_64 = w.num_migrated_x86_64 := rfl
@[simp] theorem setspecific_num_migrated_x86_64 (k v : Nat) (w : World) :
    (pthread_setspecific k v w).num_migrated_x86_64 = w.num_migrated_x86_64 := rfl
@[simp] theorem setspecific_trace (k v : Nat) (w : World) :
    (pthread_setspecific k v w).trace = w.trace := rfl

@[simp] theorem log_trace (w : World) (e : Event) : (w.log e).trace = w.trace ++ [e] := rfl

@[simp] theorem logIf_trace (w : World) (c : Bool) (e : Event) :
    (w.logIf c e).trace = w.trace ++ (if c = true then [e] else []) := by
  cases c <;> simp [World.logIf]

@[simp] theorem store_slot_trace (w : World) (v : Option shim_data) :
    (w.store_slot v).trace = w.trace ++ [Event.slot_store v] := rfl

@[simp] theorem store_slot_slot (w : World) (v : Option shim_data) :
    (w.store_slot v).slot = v := rfl

@[simp] theorem call_trace (w : World) (env : Env) (fn arg : Nat) :
    (w.call env fn arg).trace = w.trace ++ [Event.callback fn arg] := rfl

@[simp] theorem call_slot (w : World) (env : Env) (fn arg : Nat) :
    (w.call env fn arg).slot = env.callback_effect fn arg w.slot := rfl

@[simp] theorem setspecific_tsd (k v : Nat) (w : World) :
    (pthread_setspecific k v w).tsd = Function.update w.tsd k v := rfl

theorem emitted_of_trace (w w1 : World) (l : List Event) (h : w1.trace = w.trace ++ l) :
    emitted w w1 = l := by
  simp [emitted, h]

/-! ## Bootstrap slot discipline of the shim -/

theorem post_migration_slot (cfg : Config) (env : Env) (p : Option shim_data) (w : World)
    (hret : (post_migration cfg env p w).1 = Exit.returned) :
    (post_migration cfg env p w).2.slot = none := by
  unfold post_migration at hret ⊢
  by_cases h : cfg._DEBUG = true ∧ env.hold_released = false
  · simp [h] at hret
  · cases p with
    | none => simp [h] at hret
    | some d => simp [h]

theorem shim_transfer_slot (cfg : Config) (env : Env) (nid : Int) (rd : regs_union)
    (sp bp : Nat) (w : World)
    (hret : (shim_transfer cfg env nid rd sp bp w).1 = Exit.returned) :
    (shim_transfer cfg env nid rd sp bp w).2.slot = none := by
  unfold shim_transfer at hret ⊢
  cases h : env.migrate_syscall nid rd sp bp with
  | entered_trampoline => simp [h] at hret
  | resumed err =>
    simp only [h] at hret ⊢
    split_ifs at hret ⊢ with h1
    · simp
    · exact post_migration_slot _ _ _ _ hret

theorem shim_publish_slot (cfg : Config) (env : Env) (nid : Int) (cb data : Nat)
    (a : arch) (rd : regs_union) (w : World)
    (hret : (shim_publish cfg env nid cb data a rd w).1 = Exit.returned) :
    (shim_publish cfg env nid cb data a rd w).2.slot = none := by
  unfold shim_publish at hret ⊢
  cases h : dispatch env a rd with
  | none => simp [h] at hret
  | some t =>
    obtain ⟨rd1, sp, bp⟩ := t
    simp only [h] at hret ⊢
    exact shim_transfer_slot _ _ _ _ _ _ _ hret

theorem shim_invoke_slot (cfg : Config) (env : Env) (nid : Int) (cb data : Nat)
    (w : World) (hslot : w.slot = none)
    (hret : (shim_invoke cfg env nid cb data w).1 = Exit.returned) :
    (shim_invoke cfg env nid cb data w).2.slot = none := by
  unfold shim_invoke at hret ⊢
  cases h : env.rewrite_stack env.local_regset (w.ni nid.toNat).arch with
  | none => simp [h, hslot]
  | some rd =>
    simp only [h] at hret ⊢
    exact shim_publish_slot _ _ _ _ _ _ _ _ hret

/-- The world is not touched by `node_available` apart from the trace. -/
theorem node_available_slot (cfg : Config) (nid : Int) (w : World) :
    (node_available cfg nid w).2.slot = w.slot := by
  unfold node_available
  split_ifs <;> simp

/-- C1: a call of the shim that starts with a null bootstrap slot and returns
to its caller (unavailable node, rewrite failure, failed migration primitive,
or successful migration followed by the callback, whatever the callback did to
the slot) leaves the bootstrap slot null. -/
theorem shim_returns_with_null_slot (cfg : Config) (env : Env) (nid : Int)
    (callback callback_data : Nat) (w : World)
    (hslot : w.slot = none)
    (hret : (__migrate_shim_internal cfg env nid callback callback_data w).1 = Exit.returned) :
    (__migrate_shim_internal cfg env nid callback callback_data w).2.slot = none := by
  have hs : (node_available cfg nid
      (w.log (Event.shim_entry nid callback callback_data))).2.slot = none := by
    rw [node_available_slot]; simpa using hslot
  unfold __migrate_shim_internal at hret ⊢
  simp only [hs] at hret ⊢
  split_ifs at hret ⊢ with h1
  · simpa using hs
  · exact shim_invoke_slot _ _ _ _ _ _ hs hret


/-- Witness of C1: a homogeneous migration to node 1 with callback 7 returns
with a null slot. -/
theorem shim_returns_with_null_slot_witness :
    sample_world.slot = none ∧
    (__migrate_shim_internal sample_cfg sample_env 1 7 9 sample_world).1 = Exit.returned ∧
    (__migrate_shim_internal sample_cfg sample_env 1 7 9 sample_world).2.slot = none :=
  ⟨rfl, by decide,
    shim_returns_with_null_slot sample_cfg sample_env 1 7 9 sample_world rfl (by decide)⟩

/-! ## Evaluation of event lists -/

theorem filter_flag (p : Event → Bool) (c : Prop) [Decidable c] (e : Event) :
    List.filter p (if c then [e] else []) = if c ∧ p e = true then [e] else [] := by
  by_cases hc : c <;> by_cases hp : p e = true <;> simp [hc, hp]

theorem any_flag (p : Event → Bool) (c : Prop) [Decidable c] (e : Event) :
    List.any (if c then [e] else []) p = decide (c ∧ p e = true) := by
  by_cases hc : c <;> by_cases hp : p e = true <;> simp [hc, hp]

theorem countP_flag (p : Event → Bool) (c : Prop) [Decidable c] (e : Event) :
    List.countP p (if c then [e] else []) = if c ∧ p e = true then 1 else 0 := by
  by_cases hc : c <;> by_cases hp : p e = true <;> simp [hc, hp]

/-! ## Re-entry with a published bootstrap record -/

theorem post_migration_nested_slot_only (cfg : Config) (env : Env)
    (p : Option shim_data) (w : World) :
    post_migration_nested cfg env (slot_only_callbacks env) p w =
      post_migration cfg env p w := rfl

theorem shim_transfer_nested_slot_only (cfg : Config) (env : Env) (nid : Int)
    (rd : regs_union) (sp bp : Nat) (w : World) :
    shim_transfer_nested cfg env (slot_only_callbacks env) nid rd sp bp w =
      shim_transfer cfg env nid rd sp bp w := rfl

theorem shim_publish_nested_slot_only (cfg : Config) (env : Env) (nid : Int)
    (cb data : Nat) (a : arch) (rd : regs_union) (w : World) :
    shim_publish_nested cfg env (slot_only_callbacks env) nid cb data a rd w =
      shim_publish cfg env nid cb data a rd w := rfl

theorem shim_invoke_nested_slot_only (cfg : Config) (env : Env) (nid : Int)
    (cb data : Nat) (w : World) :
    shim_invoke_nested cfg env (slot_only_callbacks env) nid cb data w =
      shim_invoke cfg env nid cb data w := rfl

/-- With callbacks that only touch the bootstrap slot the shim with callback
bodies is the shim of the previous sections. -/
theorem shim_nested_slot_only (cfg : Config) (env : Env) (nid : Int) (cb data : Nat)
    (w : World) :
    __migrate_shim_internal_nested cfg env (slot_only_callbacks env) nid cb data w =
      __migrate_shim_internal cfg env nid cb data w := rfl

/-- The nested call made by callback 7 of `sample_reentrant_callbacks`
returns whenever it finds a record in the bootstrap slot of a thread with the
sample topology, so that callback does return. -/
theorem sample_nested_call_returns (w : World) (d : shim_data)
    (hni : w.ni = sample_ni) (hs : w.slot = some d) :
    (migrate sample_cfg sample_env_node1 0 8 5 w).1 = Exit.returned := by
  have h2 : int_of_unsigned (sample_ni 0).status ≠ 0 := by decide
  by_cases hc : d.callback = 0 <;>
    simp [migrate, current_nid, sample_env_node1, sample_env, __migrate_shim_internal,
      node_available, post_migration, sample_cfg, hni, hs, h2, hc]

theorem int_of_unsigned_eq_zero (u : Nat) : int_of_unsigned u = 0 ↔ u % 2 ^ 32 = 0 := by
  unfold int_of_unsigned
  have : u % 2 ^ 32 < 2 ^ 32 := Nat.mod_lt _ (by norm_num)
  norm_num at this ⊢
  split_ifs <;> omega

theorem int_of_unsigned_small (u : Nat) (h : u < 2 ^ 31) : int_of_unsigned u = (u : Int) := by
  unfold int_of_unsigned
  norm_num at h ⊢
  split_ifs <;> omega

theorem int_of_unsigned_emod (u : Nat) :
    int_of_unsigned u % 2 ^ 32 = ((u % 2 ^ 32 : Nat) : Int) := by
  unfold int_of_unsigned
  have : u % 2 ^ 32 < 2 ^ 32 := Nat.mod_lt _ (by norm_num)
  norm_num at this ⊢
  split_ifs <;> omega

@[simp] theorem node_available_ni (cfg : Config) (nid : Int) (w : World) :
    (node_available cfg nid w).2.ni = w.ni := by
  unfold node_available
  split_ifs <;> simp

@[simp] theorem node_available_trace (cfg : Config) (nid : Int) (w : World) :
    (node_available cfg nid w).2.trace =
      w.trace ++ (if nid < 0 ∨ nid ≥ (cfg.MAX_POPCORN_NODES : Int) then []
        else [Event.ni_index nid]) := by
  unfold node_available
  split_ifs <;> simp

theorem node_available_log (cfg : Config) (nid : Int) (w : World) (e : Event) :
    (node_available cfg nid (w.log e)).1 = (node_available cfg nid w).1 := by
  unfold node_available
  split_ifs <;> simp

/-- C7: `node_available(nid)` is `0` for every `nid` outside
`[0, MAX_POPCORN_NODES)` and then reads nothing (the state, trace included, is
untouched); for `nid` inside the range it is the cached `status` field of
`ni[nid]` returned as `int` (the same 32-bit word, numerically equal whenever
the field is below `2^31`, zero exactly when the field is zero) after one read
of entry `nid`; in no case does it change the node table. -/
theorem node_available_spec (cfg : Config) (nid : Int) (w : World) :
    ((nid < 0 ∨ nid ≥ (cfg.MAX_POPCORN_NODES : Int)) →
      node_available cfg nid w = (0, w) ∧ emitted w (node_available cfg nid w).2 = []) ∧
    ((0 ≤ nid ∧ nid < (cfg.MAX_POPCORN_NODES : Int)) →
      (node_available cfg nid w).1 = int_of_unsigned (w.ni nid.toNat).status ∧
      (node_available cfg nid w).1 % 2 ^ 32 = (((w.ni nid.toNat).status % 2 ^ 32 : Nat) : Int) ∧
      ((w.ni nid.toNat).status < 2 ^ 31 →
        (node_available cfg nid w).1 = ((w.ni nid.toNat).status : Int)) ∧
      ((node_available cfg nid w).1 = 0 ↔ (w.ni nid.toNat).status % 2 ^ 32 = 0) ∧
      emitted w (node_available cfg nid w).2 = [Event.ni_index nid]) ∧
    (node_available cfg nid w).2.ni = w.ni := by
  refine ⟨?_, ?_, node_available_ni cfg nid w⟩
  · intro h
    simp [node_available, h, emitted]
  · intro h
    have h1 : ¬ (nid < 0 ∨ nid ≥ (cfg.MAX_POPCORN_NODES : Int)) := by omega
    have e1 : (node_available cfg nid w).1 = int_of_unsigned (w.ni nid.toNat).status := by
      simp [node_available, h1]
    refine ⟨e1, ?_, ?_, ?_, ?_⟩
    · rw [e1]; exact int_of_unsigned_emod _
    · intro hs
      rw [e1]; exact int_of_unsigned_small _ hs
    · rw [e1]; exact int_of_unsigned_eq_zero _
    · exact emitted_of_trace _ _ _ (by simp [h1])

/-- Witness of C7: node 1 of the sample topology has status 1, node 40 is out
of range. -/
theorem node_available_spec_witness :
    ((40 : Int) < 0 ∨ (40 : Int) ≥ (sample_cfg.MAX_POPCORN_NODES : Int)) ∧
    node_available sample_cfg 40 sample_world = (0, sample_world) ∧
    ((0 : Int) ≤ 1 ∧ (1 : Int) < (sample_cfg.MAX_POPCORN_NODES : Int)) ∧
    (sample_world.ni (1 : Int).toNat).status < 2 ^ 31 ∧
    (node_available sample_cfg 1 sample_world).1 =
      ((sample_world.ni (1 : Int).toNat).status : Int) :=
  ⟨by decide, ((node_available_spec sample_cfg 40 sample_world).1 (by decide)).1,
    by decide, by decide,
    ((node_available_spec sample_cfg 1 sample_world).2.1 (by decide)).2.2.1 (by decide)⟩


/-! ## Validation failure and the entry points -/

theorem shim_unavailable (cfg : Config) (env : Env) (nid : Int) (cb data : Nat) (w : World)
    (h : (node_available cfg nid w).1 = 0) :
    (__migrate_shim_internal cfg env nid cb data w).1 = Exit.returned ∧
    (__migrate_shim_internal cfg env nid cb data w).2.slot = w.slot ∧
    (__migrate_shim_internal cfg env nid cb data w).2.trace =
      w.trace ++ ([Event.shim_entry nid cb data] ++
        ((if nid < 0 ∨ nid ≥ (cfg.MAX_POPCORN_NODES : Int) then [] else [Event.ni_index nid]) ++
        [Event.stderr Diag.dest_unavailable])) := by
  have h' := h
  rw [← node_available_log cfg nid w (Event.shim_entry nid cb data)] at h'
  refine ⟨?_, ?_, ?_⟩
  · simp [__migrate_shim_internal, h']
  · simp [__migrate_shim_internal, h', node_available_slot]
  · simp [__migrate_shim_internal, h']

theorem current_nid_world (env : Env) (w : World) :
    (current_nid env w).2 = w.log Event.syscall_get_thread_status := by
  unfold current_nid
  cases env.thread_status <;> rfl

theorem current_nid_failed (env : Env) (w : World) (h : env.thread_status = none) :
    (current_nid env w).1 = -1 := by
  simp [current_nid, h]

theorem current_nid_ok (env : Env) (w : World) (st : popcorn_thread_status)
    (h : env.thread_status = some st) :
    (current_nid env w).1 = st.current_nid := by
  simp [current_nid, h]

@[simp] theorem do_migrate_ni (cfg : Config) (env : Env) (addr : Nat) (w : World) :
    (do_migrate cfg env addr w).2.ni = w.ni := by
  unfold do_migrate
  cases cfg._ENV_SELECT_MIGRATE
  · cases env.thread_status <;> simp
  · cases cfg.target <;> (simp only [if_true]; split_ifs <;> simp)

@[simp] theorem do_migrate_slot (cfg : Config) (env : Env) (addr : Nat) (w : World) :
    (do_migrate cfg env addr w).2.slot = w.slot := by
  unfold do_migrate
  cases cfg._ENV_SELECT_MIGRATE
  · cases env.thread_status <;> simp
  · cases cfg.target <;> (simp only [if_true]; split_ifs <;> simp)

@[simp] theorem do_migrate_trace (cfg : Config) (env : Env) (addr : Nat) (w : World) :
    (do_migrate cfg env addr w).2.trace =
      w.trace ++ (if cfg._ENV_SELECT_MIGRATE = true then []
        else [Event.syscall_get_thread_status]) := by
  unfold do_migrate
  cases cfg._ENV_SELECT_MIGRATE
  · cases env.thread_status <;> simp
  · cases cfg.target <;> (simp only [if_true]; split_ifs <;> simp)

theorem quiet_of_unavailable (cfg : Config) (env : Env) (nid : Int) (cb data : Nat)
    (w w1 : World) (pre : List Event)
    (htr : w1.trace = w.trace ++ pre)
    (hpre : List.any pre Event.isRewrite = false ∧ List.any pre Event.isMigrate = false ∧
      List.any pre Event.isCallback = false)
    (h : (node_available cfg nid w1).1 = 0) :
    no_migration_activity w (__migrate_shim_internal cfg env nid cb data w1) := by
  obtain ⟨e1, _, e3⟩ := shim_unavailable cfg env nid cb data w1 h
  obtain ⟨p1, p2, p3⟩ := hpre
  have he : emitted w (__migrate_shim_internal cfg env nid cb data w1).2 =
      pre ++ ([Event.shim_entry nid cb data] ++
        ((if nid < 0 ∨ nid ≥ (cfg.MAX_POPCORN_NODES : Int) then [] else [Event.ni_index nid]) ++
        [Event.stderr Diag.dest_unavailable])) := by
    apply emitted_of_trace
    rw [e3, htr, List.append_assoc]
  by_cases hr : nid < 0 ∨ nid ≥ (cfg.MAX_POPCORN_NODES : Int) <;>
    (refine ⟨e1, ?_, ?_, ?_⟩ <;> rw [he] <;>
      simp [hr, p1, p2, p3, Event.isRewrite, Event.isMigrate, Event.isCallback])

theorem reset_loop (n : Nat) (w : World) :
    ((List.range n).foldl reset_node w).ni =
        (fun i => if i < n then
          ({ status := 0, arch := arch.ARCH_UNKNOWN, distance := -1 } : node_info)
          else w.ni i) ∧
    ((List.range n).foldl reset_node w).default_node = w.default_node ∧
    ((List.range n).foldl reset_node w).trace = w.trace := by
  induction n with
  | zero => simp
  | succ k ih =>
    obtain ⟨h1, h2, h3⟩ := ih
    rw [List.range_succ, List.foldl_append]
    refine ⟨?_, ?_, ?_⟩
    · funext i
      simp only [List.foldl_cons, List.foldl_nil, reset_node, h1]
      by_cases hik : i = k
      · subst hik; simp
      · rw [Function.update_noteq hik]
        have : (i < k + 1) ↔ (i < k) := by omega
        simp [this]
    · simpa [reset_node] using h2
    · simpa [reset_node] using h3


theorem unavailable_of_table (cfg : Config) (w : World)
    (h : ∀ i : Nat, i < cfg.MAX_POPCORN_NODES → (w.ni i).status = 0) (nid : Int) :
    (node_available cfg nid w).1 = 0 := by
  unfold node_available
  split_ifs with h1
  · rfl
  · have h2 : nid.toNat < cfg.MAX_POPCORN_NODES := by omega
    simp [h _ h2, int_of_unsigned]

theorem migrate_quiet (cfg : Config) (env : Env) (nid : Int) (cb data : Nat) (w : World)
    (h : ∀ i : Nat, i < cfg.MAX_POPCORN_NODES → (w.ni i).status = 0) :
    no_migration_activity w (migrate cfg env nid cb data w) := by
  unfold migrate
  simp only [current_nid_world]
  split_ifs with hn
  · exact quiet_of_unavailable cfg env nid cb data w _ [Event.syscall_get_thread_status]
      (by simp) (by simp [Event.isRewrite, Event.isMigrate, Event.isCallback])
      (unavailable_of_table cfg _ (by simpa using h) nid)
  · simp [no_migration_activity, emitted, Event.isRewrite, Event.isMigrate, Event.isCallback]

theorem migrate_schedule_quiet (cfg : Config) (env : Env) (region : Nat) (tid : Int)
    (cb data : Nat) (w : World)
    (h : ∀ i : Nat, i < cfg.MAX_POPCORN_NODES → (w.ni i).status = 0) :
    no_migration_activity w (migrate_schedule cfg env region tid cb data w) := by
  unfold migrate_schedule
  simp only [current_nid_world]
  split_ifs with hn
  · exact quiet_of_unavailable cfg env _ cb data w _
      [Event.get_node_mapping region tid, Event.syscall_get_thread_status]
      (by simp) (by simp [Event.isRewrite, Event.isMigrate, Event.isCallback])
      (unavailable_of_table cfg _ (by simpa using h) _)
  · simp [no_migration_activity, emitted, Event.isRewrite, Event.isMigrate, Event.isCallback]

theorem check_migrate_quiet (cfg : Config) (env : Env) (ra : Nat) (cb data : Nat) (w : World)
    (h : ∀ i : Nat, i < cfg.MAX_POPCORN_NODES → (w.ni i).status = 0) :
    no_migration_activity w (check_migrate cfg env ra cb data w) := by
  unfold check_migrate
  simp only [current_nid_world]
  split_ifs with h0 hn
  · exact quiet_of_unavailable cfg env _ cb data w _
      ((if cfg._ENV_SELECT_MIGRATE = true then [] else [Event.syscall_get_thread_status]) ++
        [Event.syscall_get_thread_status])
      (by simp)
      (by cases cfg._ENV_SELECT_MIGRATE <;>
        simp [Event.isRewrite, Event.isMigrate, Event.isCallback])
      (unavailable_of_table cfg _ (by simpa using h) _)
  · cases hf : cfg._ENV_SELECT_MIGRATE <;>
      simp [no_migration_activity, emitted, hf, Event.isRewrite, Event.isMigrate,
        Event.isCallback]
  · cases hf : cfg._ENV_SELECT_MIGRATE <;>
      simp [no_migration_activity, emitted, hf, Event.isRewrite, Event.isMigrate,
        Event.isCallback]

/-- C5: when the topology query of `__init_nodes_info` fails, every entry of
the node table ends up as status 0, `ARCH_UNKNOWN`, distance -1 and the
default node is -1; in every later state with that table `node_available` is
0 for every node id, `current_arch` is `ARCH_UNKNOWN` whatever the thread
status, and `check_migrate`, `migrate` and `migrate_schedule` return, for all
arguments and all selector and schedule results, without invoking the stack
rewriter, the migration primitive or a callback. -/
theorem init_failure_disables_migration (cfg : Config) (env : Env) (w0 : World)
    (hfail : env.node_info_ret ≠ 0) :
    (∀ i : Nat, i < cfg.MAX_POPCORN_NODES →
      (__init_nodes_info cfg env w0).ni i =
        { status := 0, arch := arch.ARCH_UNKNOWN, distance := -1 }) ∧
    (__init_nodes_info cfg env w0).default_node = -1 ∧
    (∀ (env1 : Env) (w : World),
      (∀ i : Nat, i < cfg.MAX_POPCORN_NODES → w.ni i = (__init_nodes_info cfg env w0).ni i) →
      (∀ nid : Int, (node_available cfg nid w).1 = 0) ∧
      (current_arch cfg env1 w).1 = arch.ARCH_UNKNOWN ∧
      (∀ (ra cb data : Nat), no_migration_activity w (check_migrate cfg env1 ra cb data w)) ∧
      (∀ (nid : Int) (cb data : Nat),
        no_migration_activity w (migrate cfg env1 nid cb data w)) ∧
      (∀ (region : Nat) (tid : Int) (cb data : Nat),
        no_migration_activity w (migrate_schedule cfg env1 region tid cb data w))) := by
  have hni : ∀ i : Nat, i < cfg.MAX_POPCORN_NODES →
      (__init_nodes_info cfg env w0).ni i =
        { status := 0, arch := arch.ARCH_UNKNOWN, distance := -1 } := by
    intro i hi
    unfold __init_nodes_info
    simp only [hfail, ne_eq, not_false_eq_true, if_true, log_ni]
    rw [(reset_loop cfg.MAX_POPCORN_NODES _).1]
    simp [hi]
  refine ⟨hni, ?_, ?_⟩
  · unfold __init_nodes_info
    simp [hfail]
  · intro env1 w hw
    have hst : ∀ i : Nat, i < cfg.MAX_POPCORN_NODES → (w.ni i).status = 0 := by
      intro i hi
      rw [hw i hi, hni i hi]
    refine ⟨unavailable_of_table cfg w hst, ?_, ?_, ?_, ?_⟩
    · unfold current_arch
      simp only [current_nid_world, log_ni]
      split_ifs with h1
      · rfl
      · have h2 : (current_nid env1 w).1.toNat < cfg.MAX_POPCORN_NODES := by omega
        rw [hw _ h2, hni _ h2]
    · intro ra cb data
      exact check_migrate_quiet cfg env1 ra cb data w hst
    · intro nid cb data
      exact migrate_quiet cfg env1 nid cb data w hst
    · intro region tid cb data
      exact migrate_schedule_quiet cfg env1 region tid cb data w hst


/-- Witness of C5: after a failed topology query on the sample thread the
default node is -1 and `migrate(1, 7, 9)` does nothing. -/
theorem init_failure_disables_migration_witness :
    sample_env_notopology.node_info_ret ≠ 0 ∧
    (__init_nodes_info sample_cfg sample_env_notopology sample_world).default_node = -1 ∧
    no_migration_activity (__init_nodes_info sample_cfg sample_env_notopology sample_world)
      (migrate sample_cfg sample_env 1 7 9
        (__init_nodes_info sample_cfg sample_env_notopology sample_world)) :=
  ⟨by decide,
    (init_failure_disables_migration sample_cfg sample_env_notopology sample_world
      (by decide)).2.1,
    ((init_failure_disables_migration sample_cfg sample_env_notopology sample_world
      (by decide)).2.2 sample_env
      (__init_nodes_info sample_cfg sample_env_notopology sample_world)
      (fun _ _ => rfl)).2.2.2.1 1 7 9⟩

/-! ## The shim always records its entry -/

theorem ext_log (w0 w : World) (e : Event) (h : w0.trace <+: w.trace) :
    w0.trace <+: (w.log e).trace :=
  h.trans (by simp)

theorem ext_logIf (w0 w : World) (c : Bool) (e : Event) (h : w0.trace <+: w.trace) :
    w0.trace <+: (w.logIf c e).trace :=
  h.trans (by simp)

theorem ext_store_slot (w0 w : World) (v : Option shim_data) (h : w0.trace <+: w.trace) :
    w0.trace <+: (w.store_slot v).trace :=
  h.trans (by simp)

theorem ext_call (w0 w : World) (env : Env) (fn arg : Nat) (h : w0.trace <+: w.trace) :
    w0.trace <+: (w.call env fn arg).trace :=
  h.trans (by simp)

theorem ext_node_available (w0 w : World) (cfg : Config) (nid : Int)
    (h : w0.trace <+: w.trace) : w0.trace <+: (node_available cfg nid w).2.trace :=
  h.trans (by simp)

theorem post_migration_ext (cfg : Config) (env : Env) (p : Option shim_data) (w0 w : World)
    (h : w0.trace <+: w.trace) : w0.trace <+: (post_migration cfg env p w).2.trace := by
  unfold post_migration
  by_cases hh : cfg._DEBUG = true ∧ env.hold_released = false
  · simpa [hh] using h
  · cases p with
    | none => simpa [hh] using h
    | some d =>
      simp only [hh, if_false]
      apply ext_store_slot
      split_ifs
      · exact ext_call _ _ _ _ _ h
      · exact h

theorem shim_transfer_ext (cfg : Config) (env : Env) (nid : Int) (rd : regs_union)
    (sp bp : Nat) (w0 w : World) (h : w0.trace <+: w.trace) :
    w0.trace <+: (shim_transfer cfg env nid rd sp bp w).2.trace := by
  unfold shim_transfer
  cases hm : env.migrate_syscall nid rd sp bp with
  | entered_trampoline => exact ext_log _ _ _ h
  | resumed err =>
    simp only []
    split_ifs
    · exact ext_store_slot _ _ _ (ext_log _ _ _ (ext_log _ _ _ h))
    · exact post_migration_ext _ _ _ _ _ (ext_log _ _ _ h)

theorem shim_publish_ext (cfg : Config) (env : Env) (nid : Int) (cb data : Nat)
    (a : arch) (rd : regs_union) (w0 w : World) (h : w0.trace <+: w.trace) :
    w0.trace <+: (shim_publish cfg env nid cb data a rd w).2.trace := by
  unfold shim_publish
  cases hd : dispatch env a rd with
  | none =>
    exact ext_log _ _ _ (ext_logIf _ _ _ _ (ext_store_slot _ _ _
      (ext_logIf _ _ _ _ (ext_logIf _ _ _ _ h))))
  | some t =>
    obtain ⟨rd1, sp, bp⟩ := t
    exact shim_transfer_ext _ _ _ _ _ _ _ _ (ext_logIf _ _ _ _ (ext_logIf _ _ _ _
      (ext_store_slot _ _ _ (ext_logIf _ _ _ _ (ext_logIf _ _ _ _ h)))))

theorem shim_invoke_ext (cfg : Config) (env : Env) (nid : Int) (cb data : Nat)
    (w0 w : World) (h : w0.trace <+: w.trace) :
    w0.trace <+: (shim_invoke cfg env nid cb data w).2.trace := by
  unfold shim_invoke
  simp only []
  cases hr : env.rewrite_stack env.local_regset (w.ni nid.toNat).arch with
  | none =>
    exact ext_log _ _ _ (ext_log _ _ _ (ext_logIf _ _ _ _ (ext_log _ _ _ (ext_log _ _ _ h))))
  | some rd =>
    exact shim_publish_ext _ _ _ _ _ _ _ _ _
      (ext_log _ _ _ (ext_logIf _ _ _ _ (ext_log _ _ _ (ext_log _ _ _ h))))

theorem shim_ext (cfg : Config) (env : Env) (nid : Int) (cb data : Nat) (w : World) :
    (w.log (Event.shim_entry nid cb data)).trace <+:
      (__migrate_shim_internal cfg env nid cb data w).2.trace := by
  have h0 : (w.log (Event.shim_entry nid cb data)).trace <+:
      (node_available cfg nid (w.log (Event.shim_entry nid cb data))).2.trace :=
    ext_node_available _ _ _ _ (List.prefix_refl _)
  unfold __migrate_shim_internal
  simp only []
  split_ifs with h1
  · exact ext_log _ _ _ h0
  · cases hs : (node_available cfg nid (w.log (Event.shim_entry nid cb data))).2.slot with
    | none => exact shim_invoke_ext _ _ _ _ _ _ _ h0
    | some d => exact post_migration_ext _ _ _ _ _ h0

theorem shim_entry_first (cfg : Config) (env : Env) (nid : Int) (cb data : Nat) (w : World) :
    ∃ l, (__migrate_shim_internal cfg env nid cb data w).2.trace =
      w.trace ++ Event.shim_entry nid cb data :: l := by
  obtain ⟨l, hl⟩ := shim_ext cfg env nid cb data w
  exact ⟨l, by rw [← hl]; simp⟩


theorem shim_emits_entry (cfg : Config) (env : Env) (nid : Int) (cb data : Nat)
    (w w1 : World) (pre : List Event) (htr : w1.trace = w.trace ++ pre) :
    ∃ l, emitted w (__migrate_shim_internal cfg env nid cb data w1).2 =
      pre ++ Event.shim_entry nid cb data :: l := by
  obtain ⟨l, hl⟩ := shim_entry_first cfg env nid cb data w1
  exact ⟨l, emitted_of_trace _ _ _ (by rw [hl, htr, List.append_assoc])⟩

/-! ## The environment-range test of `do_migrate` -/

theorem do_migrate_env_eq (cfg : Config) (env : Env) (addr : Nat) (w : World)
    (henv : cfg._ENV_SELECT_MIGRATE = true) :
    do_migrate cfg env addr w =
      if range_start cfg w ≠ 0 ∧ migrated_flag cfg w = 0 ∧
          range_start cfg w ≤ addr ∧ addr < range_end cfg w then
        (env_select_node cfg, pthread_setspecific (migrated_key cfg w) 1 w)
      else (-1, w) := by
  unfold do_migrate
  cases ht : cfg.target <;>
    simp only [henv, if_true, range_start, range_end, migrated_flag, migrated_key,
      env_select_node, ht] <;>
    split_ifs <;> first | rfl | (exfalso; tauto)

theorem migrated_flag_set (cfg : Config) (w : World) :
    migrated_flag cfg (pthread_setspecific (migrated_key cfg w) 1 w) = 1 := by
  unfold migrated_flag migrated_key pthread_getspecific
  cases cfg.target <;> simp

theorem env_select_node_nonneg (cfg : Config) : env_select_node cfg ≥ 0 := by
  unfold env_select_node
  cases cfg.target <;> simp

/-! ## Entry points and the thread-status query -/

/-- C4 fails as stated: with a failing thread-status query `current_nid()` is
-1, and `migrate(1, 7, 9)` on the sample thread enters the shim, calls the
stack rewriter and the migration primitive and runs the callback. -/
theorem failed_status_query_still_migrates_counterexample :
    sample_env_nostatus.thread_status = none ∧
    (current_nid sample_env_nostatus sample_world).1 = -1 ∧
    List.any (emitted sample_world
      (migrate sample_cfg sample_env_nostatus 1 7 9 sample_world).2) Event.isShimEntry = true ∧
    List.any (emitted sample_world
      (migrate sample_cfg sample_env_nostatus 1 7 9 sample_world).2) Event.isRewrite = true ∧
    List.any (emitted sample_world
      (migrate sample_cfg sample_env_nostatus 1 7 9 sample_world).2) Event.isMigrate = true ∧
    List.any (emitted sample_world
      (migrate sample_cfg sample_env_nostatus 1 7 9 sample_world).2) Event.isCallback = true := by
  refine ⟨rfl, by decide, by decide, by decide, by decide, by decide⟩

/-- C4, amended: when the thread-status query fails, `current_nid()` returns
-1 and the entry points compare the destination with -1.  `migrate` and
`migrate_schedule` enter the shim, with exactly their node id, callback and
data, unless the requested (scheduled) node id is itself -1; `check_migrate`
enters the shim exactly when `do_migrate` returns a node id `>= 0`, which
never happens under the signal-trigger selector, whose own status query
fails as well, and does happen under the environment-range selector: a call
from inside a configured range by a thread that has not yet migrated enters
the shim with the constant of the compilation target. -/
theorem failed_status_query_entry_points (cfg : Config) (env : Env) (w : World)
    (hfail : env.thread_status = none) :
    (current_nid env w).1 = -1 ∧
    (∀ (nid : Int) (cb data : Nat),
      (nid ≠ -1 → migrate cfg env nid cb data w =
        __migrate_shim_internal cfg env nid cb data (w.log Event.syscall_get_thread_status)) ∧
      (nid = -1 → migrate cfg env nid cb data w =
        (Exit.returned, w.log Event.syscall_get_thread_status)) ∧
      (List.any (emitted w (migrate cfg env nid cb data w).2) Event.isShimEntry = true ↔
        nid ≠ -1)) ∧
    (∀ (region : Nat) (tid : Int) (cb data : Nat),
      (env.get_node_mapping region tid ≠ -1 →
        migrate_schedule cfg env region tid cb data w =
          __migrate_shim_internal cfg env (env.get_node_mapping region tid) cb data
            ((w.log (Event.get_node_mapping region tid)).log
              Event.syscall_get_thread_status)) ∧
      (List.any (emitted w (migrate_schedule cfg env region tid cb data w).2)
          Event.isShimEntry = true ↔ env.get_node_mapping region tid ≠ -1)) ∧
    (∀ (ra cb data : Nat),
      ((do_migrate cfg env ra w).1 ≥ 0 →
        check_migrate cfg env ra cb data w =
          __migrate_shim_internal cfg env (do_migrate cfg env ra w).1 cb data
            ((do_migrate cfg env ra w).2.log Event.syscall_get_thread_status)) ∧
      (List.any (emitted w (check_migrate cfg env ra cb data w).2)
          Event.isShimEntry = true ↔ (do_migrate cfg env ra w).1 ≥ 0)) ∧
    (cfg._ENV_SELECT_MIGRATE = false → ∀ (ra cb data : Nat),
      List.any (emitted w (check_migrate cfg env ra cb data w).2)
        Event.isShimEntry = false) ∧
    (cfg._ENV_SELECT_MIGRATE = true → ∀ (ra cb data : Nat),
      range_start cfg w ≠ 0 → migrated_flag cfg w = 0 →
      range_start cfg w ≤ ra → ra < range_end cfg w →
      check_migrate cfg env ra cb data w =
        __migrate_shim_internal cfg env (env_select_node cfg) cb data
          ((pthread_setspecific (migrated_key cfg w) 1 w).log
            Event.syscall_get_thread_status) ∧
      List.any (emitted w (check_migrate cfg env ra cb data w).2)
        Event.isShimEntry = true) := by
  have hc : ∀ w1 : World, (current_nid env w1).1 = -1 := fun w1 =>
    current_nid_failed env w1 hfail
  have hcheck : ∀ (ra cb data : Nat),
      (List.any (emitted w (check_migrate cfg env ra cb data w).2)
          Event.isShimEntry = true ↔ (do_migrate cfg env ra w).1 ≥ 0) := by
    intro ra cb data
    unfold check_migrate
    simp only [current_nid_world, hc]
    by_cases h0 : (do_migrate cfg env ra w).1 ≥ 0
    · have h1 : (do_migrate cfg env ra w).1 ≠ -1 := by omega
      simp only [h0, h1, if_true, ne_eq, not_false_eq_true, iff_true]
      obtain ⟨l, hl⟩ := shim_emits_entry cfg env (do_migrate cfg env ra w).1 cb data w
        ((do_migrate cfg env ra w).2.log Event.syscall_get_thread_status)
        ((if cfg._ENV_SELECT_MIGRATE = true then [] else [Event.syscall_get_thread_status]) ++
          [Event.syscall_get_thread_status]) (by simp)
      rw [hl]
      simp [Event.isShimEntry]
    · simp only [h0, if_false, iff_false]
      cases hf : cfg._ENV_SELECT_MIGRATE <;> simp [emitted, hf, Event.isShimEntry]
  refine ⟨hc w, ?_, ?_, ?_, ?_, ?_⟩
  · intro nid cb data
    refine ⟨?_, ?_, ?_⟩
    · intro hn
      simp [migrate, current_nid_world, hc, hn]
    · intro hn
      simp [migrate, current_nid_world, hc, hn]
    · unfold migrate
      simp only [current_nid_world, hc]
      by_cases hn : nid = -1
      · simp [hn, emitted, Event.isShimEntry]
      · simp only [hn, ne_eq, not_false_eq_true, if_true, iff_true]
        obtain ⟨l, hl⟩ := shim_emits_entry cfg env nid cb data w
          (w.log Event.syscall_get_thread_status) [Event.syscall_get_thread_status] (by simp)
        rw [hl]
        simp [Event.isShimEntry]
  · intro region tid cb data
    refine ⟨?_, ?_⟩
    · intro hn
      simp [migrate_schedule, current_nid_world, hc, hn]
    · unfold migrate_schedule
      simp only [current_nid_world, hc]
      by_cases hn : env.get_node_mapping region tid = -1
      · simp [hn, emitted, Event.isShimEntry]
      · simp only [hn, ne_eq, not_false_eq_true, if_true, iff_true]
        obtain ⟨l, hl⟩ := shim_emits_entry cfg env (env.get_node_mapping region tid) cb data w
          ((w.log (Event.get_node_mapping region tid)).log Event.syscall_get_thread_status)
          [Event.get_node_mapping region tid, Event.syscall_get_thread_status] (by simp)
        rw [hl]
        simp [Event.isShimEntry]
  · intro ra cb data
    refine ⟨?_, hcheck ra cb data⟩
    intro h0
    have h1 : (do_migrate cfg env ra w).1 ≠ -1 := by omega
    simp [check_migrate, current_nid_world, hc, h0, h1]
  · intro hf ra cb data
    have hd : (do_migrate cfg env ra w).1 = -1 := by
      simp [do_migrate, hf, hfail]
    have := hcheck ra cb data
    rw [hd] at this
    cases hb : List.any (emitted w (check_migrate cfg env ra cb data w).2) Event.isShimEntry
    · rfl
    · rw [hb] at this
      have h2 := this.1 rfl
      omega
  · intro henv ra cb data h1 h2 h3 h4
    have hd : do_migrate cfg env ra w =
        (env_select_node cfg, pthread_setspecific (migrated_key cfg w) 1 w) := by
      rw [do_migrate_env_eq cfg env ra w henv, if_pos ⟨h1, h2, h3, h4⟩]
    have h0 : (do_migrate cfg env ra w).1 ≥ 0 := by
      rw [hd]; exact env_select_node_nonneg cfg
    have hne : (do_migrate cfg env ra w).1 ≠ -1 := by omega
    refine ⟨?_, (hcheck ra cb data).2 h0⟩
    have he : check_migrate cfg env ra cb data w =
        __migrate_shim_internal cfg env (do_migrate cfg env ra w).1 cb data
          ((do_migrate cfg env ra w).2.log Event.syscall_get_thread_status) := by
      simp [check_migrate, current_nid_world, hc, h0, hne]
    rw [he, hd]

/-- Witness of C4 (amended): with a failing status query, `migrate(1, 7, 9)`
on the sample thread is a call of the shim with `(1, 7, 9)`, and under the
environment-range selector `check_migrate(7, 9)` called from `0x400550`
inside the range `[0x400500, 0x400600)` enters the shim. -/
theorem failed_status_query_entry_points_witness :
    sample_env_nostatus.thread_status = none ∧
    (1 : Int) ≠ -1 ∧
    migrate sample_cfg sample_env_nostatus 1 7 9 sample_world =
      __migrate_shim_internal sample_cfg sample_env_nostatus 1 7 9
        (sample_world.log Event.syscall_get_thread_status) ∧
    sample_cfg._ENV_SELECT_MIGRATE = true ∧
    range_start sample_cfg sample_world_range ≠ 0 ∧
    migrated_flag sample_cfg sample_world_range = 0 ∧
    range_start sample_cfg sample_world_range ≤ 0x400550 ∧
    0x400550 < range_end sample_cfg sample_world_range ∧
    List.any (emitted sample_world_range
      (check_migrate sample_cfg sample_env_nostatus 0x400550 7 9 sample_world_range).2)
      Event.isShimEntry = true :=
  ⟨rfl, by decide,
    ((failed_status_query_entry_points sample_cfg sample_env_nostatus sample_world rfl).2.1
      1 7 9).1 (by decide),
    rfl, by decide, by decide, by decide, by decide,
    ((failed_status_query_entry_points sample_cfg sample_env_nostatus sample_world_range
      rfl).2.2.2.2.2 rfl 0x400550 7 9 (by decide) (by decide) (by decide) (by decide)).2⟩

/-- C6: `migrate(nid, callback, data)` is a no-op when the thread-status
query made inside it reports `current_nid == nid`: its only event is that
query, the shim is not entered, no callback, rewriter or migration primitive
is invoked and the bootstrap slot is unchanged.  When `nid` differs from
`current_nid()`, `migrate` is exactly the shim called with
`(nid, callback, data)` right after the query. -/
theorem migrate_noop_on_current_node (cfg : Config) (env : Env) (nid : Int)
    (callback callback_data : Nat) (w : World) :
    (∀ st : popcorn_thread_status, env.thread_status = some st → st.current_nid = nid →
      migrate cfg env nid callback callback_data w =
        (Exit.returned, w.log Event.syscall_get_thread_status) ∧
      emitted w (migrate cfg env nid callback callback_data w).2 =
        [Event.syscall_get_thread_status] ∧
      (migrate cfg env nid callback callback_data w).2.slot = w.slot ∧
      List.any (emitted w (migrate cfg env nid callback callback_data w).2)
        Event.isShimEntry = false ∧
      no_migration_activity w (migrate cfg env nid callback callback_data w)) ∧
    ((current_nid env w).1 ≠ nid →
      migrate cfg env nid callback callback_data w =
        __migrate_shim_internal cfg env nid callback callback_data (current_nid env w).2 ∧
      ∃ l, emitted w (migrate cfg env nid callback callback_data w).2 =
        Event.syscall_get_thread_status :: Event.shim_entry nid callback callback_data :: l) := by
  constructor
  · intro st hst hcur
    have hc : (current_nid env w).1 = nid := by
      rw [current_nid_ok env w st hst, hcur]
    have he : migrate cfg env nid callback callback_data w =
        (Exit.returned, w.log Event.syscall_get_thread_status) := by
      simp [migrate, current_nid_world, hc]
    rw [he]
    simp [emitted, no_migration_activity, Event.isShimEntry, Event.isRewrite, Event.isMigrate,
      Event.isCallback]
  · intro hn
    have hn' : nid ≠ (current_nid env w).1 := fun h => hn h.symm
    have he : migrate cfg env nid callback callback_data w =
        __migrate_shim_internal cfg env nid callback callback_data (current_nid env w).2 := by
      simp [migrate, hn']
    refine ⟨he, ?_⟩
    rw [he, current_nid_world]
    obtain ⟨l, hl⟩ := shim_emits_entry cfg env nid callback callback_data w
      (w.log Event.syscall_get_thread_status) [Event.syscall_get_thread_status] (by simp)
    exact ⟨l, by rw [hl]; rfl⟩

/-- Witness of C6: the sample thread is on node 0, so `migrate(0, 7, 9)` does
nothing, and `migrate(1, 7, 9)` is the shim. -/
theorem migrate_noop_on_current_node_witness :
    sample_env.thread_status =
      some { current_nid := 0, proposed_nid := 1, peer_nid := 0, peer_pid := 0 } ∧
    migrate sample_cfg sample_env 0 7 9 sample_world =
      (Exit.returned, sample_world.log Event.syscall_get_thread_status) ∧
    (current_nid sample_env sample_world).1 ≠ 1 ∧
    migrate sample_cfg sample_env 1 7 9 sample_world =
      __migrate_shim_internal sample_cfg sample_env 1 7 9
        (current_nid sample_env sample_world).2 :=
  ⟨rfl,
    ((migrate_noop_on_current_node sample_cfg sample_env 0 7 9 sample_world).1 _ rfl rfl).1,
    by decide,
    ((migrate_noop_on_current_node sample_cfg sample_env 1 7 9 sample_world).2 (by decide)).1⟩


/-! ## Environment-range selector -/

theorem do_migrate_flagged (cfg : Config) (env : Env) (addr : Nat) (w : World)
    (henv : cfg._ENV_SELECT_MIGRATE = true) (hflag : migrated_flag cfg w ≠ 0) :
    do_migrate cfg env addr w = (-1, w) := by
  rw [do_migrate_env_eq cfg env addr w henv]
  simp [hflag]

theorem do_migrate_seq_flagged (cfg : Config) (env : Env)
    (henv : cfg._ENV_SELECT_MIGRATE = true) (addrs : List Nat) (w : World)
    (hflag : migrated_flag cfg w ≠ 0) :
    do_migrate_seq cfg env addrs w = (List.replicate addrs.length (-1), w) := by
  induction addrs with
  | nil => rfl
  | cons a rest ih =>
    simp only [do_migrate_seq, do_migrate_flagged cfg env a w henv hflag, ih,
      List.length_cons, List.replicate_succ]

theorem do_migrate_seq_count (cfg : Config) (env : Env)
    (henv : cfg._ENV_SELECT_MIGRATE = true) (addrs : List Nat) :
    ∀ w : World,
      List.countP (fun r : Int => decide (r ≥ 0)) (do_migrate_seq cfg env addrs w).1 ≤ 1 := by
  induction addrs with
  | nil => intro w; simp [do_migrate_seq]
  | cons a rest ih =>
    intro w
    simp only [do_migrate_seq]
    rw [do_migrate_env_eq cfg env a w henv]
    split_ifs with hc
    · have hf := migrated_flag_set cfg w
      have hne : migrated_flag cfg (pthread_setspecific (migrated_key cfg w) 1 w) ≠ 0 := by
        rw [hf]; decide
      rw [do_migrate_seq_flagged cfg env henv rest _ hne]
      have hn := env_select_node_nonneg cfg
      simp [List.countP_cons, hn, List.countP_replicate]
    · have := ih w
      simpa [List.countP_cons] using this

/-- C8: under the environment-range strategy, in any sequence of
`do_migrate` calls of one thread at most one call returns a node id
(a value `>= 0`); once the thread's "already migrated" flag is set, every
later call returns -1 whatever the address and changes nothing; and a call
made with the flag clear returns a node id exactly when it sets the flag. -/
theorem do_migrate_at_most_once (cfg : Config) (env : Env)
    (henv : cfg._ENV_SELECT_MIGRATE = true) :
    (∀ (addrs : List Nat) (w : World),
      List.countP (fun r : Int => decide (r ≥ 0)) (do_migrate_seq cfg env addrs w).1 ≤ 1) ∧
    (∀ (addr : Nat) (w : World), migrated_flag cfg w ≠ 0 →
      do_migrate cfg env addr w = (-1, w)) ∧
    (∀ (addrs : List Nat) (w : World), migrated_flag cfg w ≠ 0 →
      (do_migrate_seq cfg env addrs w).1 = List.replicate addrs.length (-1) ∧
      migrated_flag cfg (do_migrate_seq cfg env addrs w).2 ≠ 0) ∧
    (∀ (addr : Nat) (w : World), migrated_flag cfg w = 0 →
      ((do_migrate cfg env addr w).1 ≥ 0 ↔
        migrated_flag cfg (do_migrate cfg env addr w).2 ≠ 0)) := by
  refine ⟨fun addrs w => do_migrate_seq_count cfg env henv addrs w,
    fun addr w h => do_migrate_flagged cfg env addr w henv h, ?_, ?_⟩
  · intro addrs w h
    rw [do_migrate_seq_flagged cfg env henv addrs w h]
    exact ⟨rfl, h⟩
  · intro addr w h
    rw [do_migrate_env_eq cfg env addr w henv]
    split_ifs with hc
    · have hn := env_select_node_nonneg cfg
      simp [migrated_flag_set, hn]
    · simp [h]

/-- Witness of C8: with the range `[0x400500, 0x400600)` the sample thread
calling `do_migrate` three times from inside the range gets a node id at most
once. -/
theorem do_migrate_at_most_once_witness :
    sample_cfg._ENV_SELECT_MIGRATE = true ∧
    List.countP (fun r : Int => decide (r ≥ 0))
      (do_migrate_seq sample_cfg sample_env [0x400550, 0x400550, 0x400560]
        sample_world_range).1 ≤ 1 ∧
    (do_migrate_seq sample_cfg sample_env [0x400550, 0x400550, 0x400560]
        sample_world_range).1 = [2, -1, -1] :=
  ⟨rfl,
    (do_migrate_at_most_once sample_cfg sample_env rfl).1 [0x400550, 0x400550, 0x400560]
      sample_world_range,
    by decide⟩


theorem init_range_start (cfg : Config) (env : Env) (w : World)
    (henv : cfg._ENV_SELECT_MIGRATE = true) :
    range_start cfg (__init_migrate_testing cfg env (load_statics w)) =
      match env.getenv (env_start_name cfg), env.getenv (env_end_name cfg) with
      | some start, some _ => ptr_of_longlong (env.strtoll start)
      | _, _ => 0 := by
  unfold __init_migrate_testing
  cases ht : cfg.target <;>
    simp only [henv, if_true, range_start, env_start_name, env_end_name, ht] <;>
    split <;> (try split_ifs) <;> (try split) <;> simp_all [load_statics]

theorem init_range_end (cfg : Config) (env : Env) (w : World)
    (henv : cfg._ENV_SELECT_MIGRATE = true) :
    range_end cfg (__init_migrate_testing cfg env (load_statics w)) =
      match env.getenv (env_start_name cfg), env.getenv (env_end_name cfg) with
      | some _, some end_ => ptr_of_longlong (env.strtoll end_)
      | _, _ => 0 := by
  unfold __init_migrate_testing
  cases ht : cfg.target <;>
    simp only [henv, if_true, range_end, env_start_name, env_end_name, ht] <;>
    split <;> (try split_ifs) <;> (try split) <;> simp_all [load_statics]


theorem do_migrate_disabled (cfg : Config) (env : Env) (addr : Nat) (w : World)
    (henv : cfg._ENV_SELECT_MIGRATE = true)
    (h : range_start cfg w = 0 ∨ range_end cfg w = 0) :
    do_migrate cfg env addr w = (-1, w) := by
  rw [do_migrate_env_eq cfg env addr w henv]
  rcases h with h | h
  · simp [h]
  · simp [h]

/-- C9: under the environment-range strategy `do_migrate(addr)` returns the
constant of the compilation target (0 on AArch64, 1 on POWERPC64, 2 on
X86-64) and sets the thread's migrated flag when the thread has not yet
migrated and `start <= addr < end` for a configured (non-null) `start`, and
returns -1 leaving the state alone in every other case, so that for a
configured range the constant is returned exactly in that case.
`do_migrate(NULL)` is -1 for every range; with a null `start` or `end` every
address gives -1; and `__init_migrate_testing` leaves such a null bound
whenever one of the two variables is missing or parses as zero, and otherwise
stores the two parsed addresses. -/
theorem do_migrate_env_range (cfg : Config) (env : Env) (addr : Nat) (w : World)
    (henv : cfg._ENV_SELECT_MIGRATE = true) :
    (range_start cfg w ≠ 0 → migrated_flag cfg w = 0 →
      range_start cfg w ≤ addr → addr < range_end cfg w →
      do_migrate cfg env addr w =
        (env_select_node cfg, pthread_setspecific (migrated_key cfg w) 1 w) ∧
      migrated_flag cfg (do_migrate cfg env addr w).2 = 1) ∧
    (¬ (migrated_flag cfg w = 0 ∧ range_start cfg w ≤ addr ∧ addr < range_end cfg w) →
      do_migrate cfg env addr w = (-1, w)) ∧
    (range_start cfg w ≠ 0 →
      ((do_migrate cfg env addr w).1 = env_select_node cfg ∧
          migrated_flag cfg (do_migrate cfg env addr w).2 = 1 ↔
        (migrated_flag cfg w = 0 ∧ range_start cfg w ≤ addr ∧ addr < range_end cfg w))) ∧
    ((cfg.target = isa.aarch64 → env_select_node cfg = 0) ∧
      (cfg.target = isa.powerpc64 → env_select_node cfg = 1) ∧
      (cfg.target = isa.x86_64 → env_select_node cfg = 2)) ∧
    do_migrate cfg env 0 w = (-1, w) ∧
    ((range_start cfg w = 0 ∨ range_end cfg w = 0) → do_migrate cfg env addr w = (-1, w)) ∧
    (∀ (w0 : World) (start end_ : String),
      env.getenv (env_start_name cfg) = some start →
      env.getenv (env_end_name cfg) = some end_ →
      range_start cfg (__init_migrate_testing cfg env (load_statics w0)) =
        ptr_of_longlong (env.strtoll start) ∧
      range_end cfg (__init_migrate_testing cfg env (load_statics w0)) =
        ptr_of_longlong (env.strtoll end_)) ∧
    (∀ w0 : World,
      (env.getenv (env_start_name cfg) = none ∨ env.getenv (env_end_name cfg) = none ∨
        (∃ start, env.getenv (env_start_name cfg) = some start ∧
          ptr_of_longlong (env.strtoll start) = 0) ∨
        (∃ end_, env.getenv (env_end_name cfg) = some end_ ∧
          ptr_of_longlong (env.strtoll end_) = 0)) →
      ∀ w1 : World,
        range_start cfg w1 = range_start cfg (__init_migrate_testing cfg env (load_statics w0)) →
        range_end cfg w1 = range_end cfg (__init_migrate_testing cfg env (load_statics w0)) →
        ∀ a : Nat, do_migrate cfg env a w1 = (-1, w1)) := by
  have heq := do_migrate_env_eq cfg env addr w henv
  refine ⟨?_, ?_, ?_, ?_, ?_, ?_, ?_, ?_⟩
  · intro h1 h2 h3 h4
    have he : do_migrate cfg env addr w =
        (env_select_node cfg, pthread_setspecific (migrated_key cfg w) 1 w) := by
      rw [heq, if_pos ⟨h1, h2, h3, h4⟩]
    exact ⟨he, by rw [he]; exact migrated_flag_set cfg w⟩
  · intro h
    rw [heq, if_neg (fun hc => h hc.2)]
  · intro h1
    by_cases hc : migrated_flag cfg w = 0 ∧ range_start cfg w ≤ addr ∧ addr < range_end cfg w
    · rw [heq, if_pos ⟨h1, hc⟩]
      simp [hc, migrated_flag_set]
    · rw [heq, if_neg (fun h => hc h.2)]
      simp only [hc, iff_false, not_and]
      intro hneg
      have := env_select_node_nonneg cfg
      omega
  · unfold env_select_node
    refine ⟨?_, ?_, ?_⟩ <;> intro h <;> simp [h]
  · rw [do_migrate_env_eq cfg env 0 w henv]
    by_cases h0 : range_start cfg w = 0
    · simp [h0]
    · have : ¬ range_start cfg w ≤ 0 := by omega
      simp [this]
  · intro h
    exact do_migrate_disabled cfg env addr w henv h
  · intro w0 start end_ hs he
    rw [init_range_start cfg env w0 henv, init_range_end cfg env w0 henv, hs, he]
    exact ⟨rfl, rfl⟩
  · intro w0 h w1 h1 h2 a
    apply do_migrate_disabled cfg env a w1 henv
    rw [h1, h2, init_range_start cfg env w0 henv, init_range_end cfg env w0 henv]
    rcases h with h | h | ⟨s, hs, hz⟩ | ⟨e, he, hz⟩
    · left; rw [h]
    · left
      rw [h]
      cases env.getenv (env_start_name cfg) <;> rfl
    · left
      rw [hs]
      cases env.getenv (env_end_name cfg) with
      | none => rfl
      | some e => exact hz
    · right
      rw [he]
      cases env.getenv (env_start_name cfg) with
      | none => rfl
      | some s => exact hz

/-- Witness of C9: with the range `[0x400500, 0x400600)` on x86-64 the first
call from `0x400550` returns node 2 and sets the flag. -/
theorem do_migrate_env_range_witness :
    sample_cfg._ENV_SELECT_MIGRATE = true ∧
    range_start sample_cfg sample_world_range ≠ 0 ∧
    migrated_flag sample_cfg sample_world_range = 0 ∧
    range_start sample_cfg sample_world_range ≤ 0x400550 ∧
    0x400550 < range_end sample_cfg sample_world_range ∧
    (do_migrate sample_cfg sample_env 0x400550 sample_world_range).1 = 2 ∧
    migrated_flag sample_cfg
      (do_migrate sample_cfg sample_env 0x400550 sample_world_range).2 = 1 :=
  ⟨rfl, by decide, by decide, by decide, by decide, by decide,
    ((do_migrate_env_range sample_cfg sample_env 0x400550 sample_world_range rfl).1
      (by decide) (by decide) (by decide) (by decide)).2⟩


/-! ## Destination-architecture dispatch -/

theorem shim_index_in_range (cfg : Config) (env : Env) (nid : Int)
    (callback callback_data : Nat) (w : World) (hslot : w.slot = none) :
    List.any (emitted w (__migrate_shim_internal cfg env nid callback callback_data w).2)
      (Event.isBadIndex cfg) = false := by
  by_cases h1 : nid < 0 ∨ nid ≥ (cfg.MAX_POPCORN_NODES : Int)
  · simp [__migrate_shim_internal, node_available, h1, emitted, Event.isBadIndex]
  by_cases h2 : int_of_unsigned (w.ni nid.toNat).status = 0
  · simp [__migrate_shim_internal, node_available, h1, h2, emitted, Event.isBadIndex]
  cases h3 : env.rewrite_stack env.local_regset (w.ni nid.toNat).arch with
  | none =>
    simp [__migrate_shim_internal, shim_invoke, node_available, h1, h2, h3, emitted, hslot,
      Event.isBadIndex, any_flag]
  | some rd =>
    cases h4 : dispatch env (w.ni nid.toNat).arch rd with
    | none =>
      simp [__migrate_shim_internal, shim_invoke, shim_publish, node_available, h1, h2, h3,
        h4, hslot, emitted, Event.isBadIndex, any_flag]
    | some t =>
      obtain ⟨rd1, sp, bp⟩ := t
      cases h5 : env.migrate_syscall nid rd1 sp bp with
      | entered_trampoline =>
        simp [__migrate_shim_internal, shim_invoke, shim_publish, shim_transfer,
          node_available, h1, h2, h3, h4, h5, hslot, emitted, Event.isBadIndex, any_flag]
      | resumed err =>
        by_cases h6 : err = 0
        · by_cases h7 : cfg._DEBUG = true ∧ env.hold_released = false
          · simp [__migrate_shim_internal, shim_invoke, shim_publish, shim_transfer,
              post_migration, node_available, h1, h2, h3, h4, h5, h6, h7, hslot, emitted,
              Event.isBadIndex, any_flag]
          · by_cases h8 : callback = 0 <;>
              simp [__migrate_shim_internal, shim_invoke, shim_publish, shim_transfer,
                post_migration, node_available, h1, h2, h3, h4, h5, h6, h7, h8, hslot,
                emitted, Event.isBadIndex, any_flag]
        · simp [__migrate_shim_internal, shim_invoke, shim_publish, shim_transfer,
            node_available, h1, h2, h3, h4, h5, h6, hslot, emitted, Event.isBadIndex,
            any_flag]

theorem shim_migrate_events (cfg : Config) (env : Env) (nid : Int)
    (callback callback_data : Nat) (w : World) (hslot : w.slot = none)
    (havail : (node_available cfg nid w).1 ≠ 0) (rd rd1 : regs_union) (sp bp : Nat)
    (h3 : env.rewrite_stack env.local_regset (w.ni nid.toNat).arch = some rd)
    (h4 : dispatch env (w.ni nid.toNat).arch rd = some (rd1, sp, bp)) :
    List.filter Event.isMigrate
        (emitted w (__migrate_shim_internal cfg env nid callback callback_data w).2) =
      [Event.migrate_syscall nid rd1 sp bp] ∧
    List.any (emitted w (__migrate_shim_internal cfg env nid callback callback_data w).2)
      Event.isAssertFail = false ∧
    (__migrate_shim_internal cfg env nid callback callback_data w).1 ≠ Exit.aborted := by
  have h1 : ¬ (nid < 0 ∨ nid ≥ (cfg.MAX_POPCORN_NODES : Int)) := by
    intro h
    simp [node_available, h] at havail
  have h2 : int_of_unsigned (w.ni nid.toNat).status ≠ 0 := by
    simpa [node_available, h1] using havail
  cases h5 : env.migrate_syscall nid rd1 sp bp with
  | entered_trampoline =>
    simp [__migrate_shim_internal, shim_invoke, shim_publish, shim_transfer,
      node_available, h1, h2, h3, h4, h5, hslot, emitted, Event.isMigrate,
      Event.isAssertFail, any_flag, filter_flag]
  | resumed err =>
    by_cases h6 : err = 0
    · by_cases h7 : cfg._DEBUG = true ∧ env.hold_released = false
      · simp [__migrate_shim_internal, shim_invoke, shim_publish, shim_transfer,
          post_migration, node_available, h1, h2, h3, h4, h5, h6, h7, hslot, emitted,
          Event.isMigrate, Event.isAssertFail, any_flag, filter_flag]
      · by_cases h8 : callback = 0 <;>
          simp [__migrate_shim_internal, shim_invoke, shim_publish, shim_transfer,
            post_migration, node_available, h1, h2, h3, h4, h5, h6, h7, h8, hslot,
            emitted, Event.isMigrate, Event.isAssertFail, any_flag, filter_flag]
    · simp [__migrate_shim_internal, shim_invoke, shim_publish, shim_transfer,
        node_available, h1, h2, h3, h4, h5, h6, hslot, emitted, Event.isMigrate,
        Event.isAssertFail, any_flag, filter_flag]

theorem shim_no_assert_without_rewrite (cfg : Config) (env : Env) (nid : Int)
    (callback callback_data : Nat) (w : World) (hslot : w.slot = none)
    (h : (node_available cfg nid w).1 = 0 ∨
      env.rewrite_stack env.local_regset (w.ni nid.toNat).arch = none) :
    List.any (emitted w (__migrate_shim_internal cfg env nid callback callback_data w).2)
      Event.isAssertFail = false ∧
    (__migrate_shim_internal cfg env nid callback callback_data w).1 ≠ Exit.aborted := by
  by_cases h1 : nid < 0 ∨ nid ≥ (cfg.MAX_POPCORN_NODES : Int)
  · simp [__migrate_shim_internal, node_available, h1, emitted, Event.isAssertFail]
  by_cases h2 : int_of_unsigned (w.ni nid.toNat).status = 0
  · simp [__migrate_shim_internal, node_available, h1, h2, emitted, Event.isAssertFail]
  have h3 : env.rewrite_stack env.local_regset (w.ni nid.toNat).arch = none := by
    rcases h with h | h
    · simp [node_available, h1, h2] at h
    · exact h
  simp [__migrate_shim_internal, shim_invoke, node_available, h1, h2, h3, emitted, hslot,
    Event.isAssertFail, any_flag]

theorem available_arch_supported (cfg : Config) (nid : Int) (w : World)
    (hok : topology_ok cfg w) (havail : (node_available cfg nid w).1 ≠ 0) :
    (w.ni nid.toNat).arch = arch.ARCH_AARCH64 ∨ (w.ni nid.toNat).arch = arch.ARCH_POWERPC64 ∨
    (w.ni nid.toNat).arch = arch.ARCH_X86_64 := by
  have h1 : ¬ (nid < 0 ∨ nid ≥ (cfg.MAX_POPCORN_NODES : Int)) := by
    intro h
    simp [node_available, h] at havail
  have h2 : int_of_unsigned (w.ni nid.toNat).status ≠ 0 := by
    simpa [node_available, h1] using havail
  exact hok nid.toNat (by omega) h2


/-- C10: in a call of the shim with a null bootstrap slot the node table is
never indexed outside `[0, MAX_POPCORN_NODES)`; and when every available node
has one of the three supported architectures, the assertion "Unsupported
architecture!" is not reached, and after a successful rewrite exactly the
case of the destination architecture runs: the migration primitive is called
once, with the rewritten register set whose `pc` (`rip`) is that ISA's
resumption trampoline and with `sp`/`bp` taken from `(sp, x[29])`,
`(r[1], r[31])` or `(rsp, rbp)`. -/
theorem shim_dispatch_safe (cfg : Config) (env : Env) (nid : Int)
    (callback callback_data : Nat) (w : World) (hslot : w.slot = none) :
    List.any (emitted w (__migrate_shim_internal cfg env nid callback callback_data w).2)
      (Event.isBadIndex cfg) = false ∧
    (topology_ok cfg w →
      (__migrate_shim_internal cfg env nid callback callback_data w).1 ≠ Exit.aborted ∧
      List.any (emitted w (__migrate_shim_internal cfg env nid callback callback_data w).2)
        Event.isAssertFail = false) ∧
    (topology_ok cfg w → (node_available cfg nid w).1 ≠ 0 →
      ∀ rd : regs_union,
        env.rewrite_stack env.local_regset (w.ni nid.toNat).arch = some rd →
        ((w.ni nid.toNat).arch = arch.ARCH_AARCH64 ∧
          List.filter Event.isMigrate
            (emitted w (__migrate_shim_internal cfg env nid callback callback_data w).2) =
            [Event.migrate_syscall nid
              { rd with aarch := { rd.aarch with pc := env.__migrate_fixup_aarch64 } }
              rd.aarch.sp (rd.aarch.x 29)]) ∨
        ((w.ni nid.toNat).arch = arch.ARCH_POWERPC64 ∧
          List.filter Event.isMigrate
            (emitted w (__migrate_shim_internal cfg env nid callback callback_data w).2) =
            [Event.migrate_syscall nid
              { rd with powerpc := { rd.powerpc with pc := env.__migrate_fixup_powerpc64 } }
              (rd.powerpc.r 1) (rd.powerpc.r 31)]) ∨
        ((w.ni nid.toNat).arch = arch.ARCH_X86_64 ∧
          List.filter Event.isMigrate
            (emitted w (__migrate_shim_internal cfg env nid callback callback_data w).2) =
            [Event.migrate_syscall nid
              { rd with x86 := { rd.x86 with rip := env.__migrate_fixup_x86_64 } }
              rd.x86.rsp rd.x86.rbp])) := by
  refine ⟨shim_index_in_range cfg env nid callback callback_data w hslot, ?_, ?_⟩
  · intro hok
    by_cases havail : (node_available cfg nid w).1 = 0
    · have := shim_no_assert_without_rewrite cfg env nid callback callback_data w hslot
        (Or.inl havail)
      exact ⟨this.2, this.1⟩
    · cases h3 : env.rewrite_stack env.local_regset (w.ni nid.toNat).arch with
      | none =>
        have := shim_no_assert_without_rewrite cfg env nid callback callback_data w hslot
          (Or.inr h3)
        exact ⟨this.2, this.1⟩
      | some rd =>
        rcases available_arch_supported cfg nid w hok havail with ha | ha | ha
        · have := shim_migrate_events cfg env nid callback callback_data w hslot havail rd _ _ _
            h3 (by rw [ha]; rfl)
          exact ⟨this.2.2, this.2.1⟩
        · have := shim_migrate_events cfg env nid callback callback_data w hslot havail rd _ _ _
            h3 (by rw [ha]; rfl)
          exact ⟨this.2.2, this.2.1⟩
        · have := shim_migrate_events cfg env nid callback callback_data w hslot havail rd _ _ _
            h3 (by rw [ha]; rfl)
          exact ⟨this.2.2, this.2.1⟩
  · intro hok havail rd h3
    rcases available_arch_supported cfg nid w hok havail with ha | ha | ha
    · exact Or.inl ⟨ha, (shim_migrate_events cfg env nid callback callback_data w hslot havail
        rd _ _ _ h3 (by rw [ha]; rfl)).1⟩
    · exact Or.inr (Or.inl ⟨ha, (shim_migrate_events cfg env nid callback callback_data w hslot
        havail rd _ _ _ h3 (by rw [ha]; rfl)).1⟩)
    · exact Or.inr (Or.inr ⟨ha, (shim_migrate_events cfg env nid callback callback_data w hslot
        havail rd _ _ _ h3 (by rw [ha]; rfl)).1⟩)

theorem sample_topology_ok : topology_ok sample_cfg sample_world := by
  intro i _ hs
  by_cases h : i < 2
  · right; right
    simp [sample_world, sample_ni, h]
  · exfalso
    apply hs
    simp [sample_world, sample_ni, h, int_of_unsigned]

/-- Witness of C10: migrating the sample thread to the x86-64 node 1 calls
the migration primitive once, with `rip` set to the x86-64 trampoline and
`sp`/`bp` taken from `rsp`/`rbp` of the rewritten register set. -/
theorem shim_dispatch_safe_witness :
    sample_world.slot = none ∧
    topology_ok sample_cfg sample_world ∧
    (node_available sample_cfg 1 sample_world).1 ≠ 0 ∧
    (__migrate_shim_internal sample_cfg sample_env 1 7 9 sample_world).1 ≠ Exit.aborted ∧
    List.any (emitted sample_world
      (__migrate_shim_internal sample_cfg sample_env 1 7 9 sample_world).2)
      (Event.isBadIndex sample_cfg) = false :=
  ⟨rfl, sample_topology_ok, by decide,
    ((shim_dispatch_safe sample_cfg sample_env 1 7 9 sample_world rfl).2.1
      sample_topology_ok).1,
    (shim_dispatch_safe sample_cfg sample_env 1 7 9 sample_world rfl).1⟩


end Popcorn
